import Mathlib

/-!
OLPC mesh device: companion coordination and activation stages.

A shallow embedding of `src/core/devices/wifi/nm-device-olpc-mesh.c`.

The C file is a GObject subclass whose functions read and write three kinds
of state: the private fields of the mesh device, the objects it holds
pointers to (its own `NMDevice` parent part, the companion, the devices of
the manager), and the outside world it calls into (platform, signal tables,
idle scheduling).  The embedding passes all of it explicitly in one record,
`World`:

* pointers are natural numbers, `objs` maps a pointer to the object behind it;
* every call of a function that lives outside the file and acts on the
  world is appended to `trace`, in program order, under the name of the
  function called (accessors only read and are not recorded);
* a C function `f (self, args)` becomes `f (w : World) args`, returning the
  new world (and the C return value, when there is one).

Logging macros (`_LOGI`, `_LOGD`, `_LOGW`) have no effect on any state read by
the file and are left out.
-/

set_option linter.unusedVariables false

namespace OlpcMesh

/-! ## Data model -/

/-- The C enum `NMDeviceState`, an unsigned integer compared with `<`, `<=`, `>`, `>=`. -/
abbrev NMDeviceState := Nat

/-- Modelled from the spec: the enumerators of `NMDeviceState` are declared in a
header that is not under src/.  The spec orders them
`Unavailable → Disconnected → Prepare → Config → IpConfig → Activated`; the
numbers are those of the published NetworkManager D-Bus API. -/
def NM_DEVICE_STATE_UNKNOWN : NMDeviceState := 0

/-- Modelled from the spec: see `NM_DEVICE_STATE_UNKNOWN`. -/
def NM_DEVICE_STATE_UNMANAGED : NMDeviceState := 10

/-- Modelled from the spec: see `NM_DEVICE_STATE_UNKNOWN`. -/
def NM_DEVICE_STATE_UNAVAILABLE : NMDeviceState := 20

/-- Modelled from the spec: see `NM_DEVICE_STATE_UNKNOWN`. -/
def NM_DEVICE_STATE_DISCONNECTED : NMDeviceState := 30

/-- Modelled from the spec: see `NM_DEVICE_STATE_UNKNOWN`. -/
def NM_DEVICE_STATE_PREPARE : NMDeviceState := 40

/-- Modelled from the spec: see `NM_DEVICE_STATE_UNKNOWN`. -/
def NM_DEVICE_STATE_CONFIG : NMDeviceState := 50

/-- Modelled from the spec: see `NM_DEVICE_STATE_UNKNOWN`. -/
def NM_DEVICE_STATE_NEED_AUTH : NMDeviceState := 60

/-- Modelled from the spec: see `NM_DEVICE_STATE_UNKNOWN`. -/
def NM_DEVICE_STATE_IP_CONFIG : NMDeviceState := 70

/-- Modelled from the spec: see `NM_DEVICE_STATE_UNKNOWN`. -/
def NM_DEVICE_STATE_IP_CHECK : NMDeviceState := 80

/-- Modelled from the spec: see `NM_DEVICE_STATE_UNKNOWN`. -/
def NM_DEVICE_STATE_SECONDARIES : NMDeviceState := 90

/-- Modelled from the spec: see `NM_DEVICE_STATE_UNKNOWN`. -/
def NM_DEVICE_STATE_ACTIVATED : NMDeviceState := 100

/-- Modelled from the spec: see `NM_DEVICE_STATE_UNKNOWN`. -/
def NM_DEVICE_STATE_DEACTIVATING : NMDeviceState := 110

/-- Modelled from the spec: see `NM_DEVICE_STATE_UNKNOWN`. -/
def NM_DEVICE_STATE_FAILED : NMDeviceState := 120

/-- The C enum `NMDeviceStateReason`; the file names two of its values and
receives the others from its callers. -/
inductive NMDeviceStateReason where
  | NONE
  | USER_REQUESTED
  | OTHER (code : Nat)
  deriving DecidableEq, Repr

/-- The C enum `NMActStageReturn`, the result of one activation stage. -/
inductive NMActStageReturn where
  | FAILURE
  | SUCCESS
  | POSTPONE
  deriving DecidableEq, Repr

/-- The GObject properties of the mesh device (`NM_GOBJECT_PROPERTIES_DEFINE`). -/
inductive Property where
  | PROP_COMPANION
  | PROP_ACTIVE_CHANNEL
  deriving DecidableEq, Repr

/-- The signals the file connects handlers to: three on the companion
(`check_companion`), two on the manager (`constructed`). -/
inductive Signal where
  | STATE_CHANGED
  | NOTIFY_SCANNING
  | AUTOCONNECT_ALLOWED
  | DEVICE_ADDED
  | DEVICE_REMOVED
  deriving DecidableEq, Repr

/-- The pending actions of a device; the file uses
`NM_PENDING_ACTION_WAITING_FOR_COMPANION`. -/
inductive PendingAction where
  | WAITING_FOR_COMPANION
  | OTHER (code : Nat)
  deriving DecidableEq, Repr

/-- One call of a function defined outside the file, with the arguments that
matter; device arguments are pointers. -/
inductive Effect where
  | state_changed (dev : Nat) (state : NMDeviceState) (reason : NMDeviceStateReason)
  | recheck_auto_activate_schedule (dev : Nat)
  | activate_schedule_stage1_device_prepare (dev : Nat) (do_sync : Bool)
  | queue_recheck_available (dev : Nat)
  | add_pending_action (dev : Nat) (action : PendingAction) (assert_not_yet_pending : Bool)
  | remove_pending_action (dev : Nat) (action : PendingAction) (assert_is_pending : Bool)
  | scanning_prohibited_track (dev : Nat) (tag : Nat) (temporarily_prohibited : Bool)
  | object_ref (object : Nat)
  | object_unref (object : Nat)
  | signal_connect (instance_ : Nat) (signal : Signal) (data : Nat)
  | signal_handlers_disconnect_by_data (instance_ : Nat) (data : Nat)
  | signal_handlers_disconnect_by_func (instance_ : Nat) (signal : Signal) (data : Nat)
  | take_down (dev : Nat) (block : Bool)
  | bring_up (dev : Nat)
  | mesh_set_ssid (ssid : List Nat)
  | mesh_set_channel (channel : Nat)
  | notify_property (dev : Nat) (prop : Property)
  deriving DecidableEq, Repr

/-- The part of an `NMDevice` object that the file reads or has changed: the
parent-class fields, and for Wi-Fi devices the scanning flag and the list of
tags that currently prohibit scanning. -/
structure NMDevice where
  is_wifi : Bool
  hw_address : List Nat
  state : NMDeviceState
  act_request : Bool
  pending_actions : List PendingAction
  scanning : Bool
  scanning_prohibited_lst : List Nat
  deriving DecidableEq, Repr

/-- The applied `NMSettingOlpcMesh`: the bytes of the SSID and the channel. -/
structure NMSettingOlpcMesh where
  ssid : List Nat
  channel : Nat
  deriving DecidableEq, Repr

/-- The platform layer is not under src/; it is taken as a parameter: the
channel it reports for the mesh interface and the success or failure it
answers to each of the two setters. -/
structure NMPlatform where
  mesh_get_channel : Nat
  mesh_set_ssid : List Nat → Bool
  mesh_set_channel : Nat → Bool

/-- The C struct `NMDeviceOlpcMeshPrivate`; `none` is the NULL pointer. -/
structure NMDeviceOlpcMeshPrivate where
  companion : Option Nat
  manager : Option Nat
  stage1_waiting : Bool
  deriving DecidableEq, Repr

/-- Everything the functions of the file read or write.  `self` is the address
of the mesh device, `objs self` its `NMDevice` parent part. -/
structure World where
  self : Nat
  priv : NMDeviceOlpcMeshPrivate
  applied_setting : Option NMSettingOlpcMesh
  platform : NMPlatform
  objs : Nat → NMDevice
  manager_singleton : Nat
  manager_devices : List Nat
  handlers : List (Nat × Signal × Nat)
  trace : List Effect

/-! ## Helpers of the embedding -/

/-- Store `d` as the object behind pointer `dev`. -/
def set_obj (w : World) (dev : Nat) (d : NMDevice) : World :=
  { w with objs := fun p => if p = dev then d else w.objs p }

/-- Append one outside call to the trace. -/
def emit (w : World) (e : Effect) : World :=
  { w with trace := w.trace ++ [e] }

/-- Write the private field `stage1_waiting`. -/
def set_stage1_waiting (w : World) (b : Bool) : World :=
  { w with priv := { w.priv with stage1_waiting := b } }

/-- Write the private field `companion`. -/
def set_companion (w : World) (c : Option Nat) : World :=
  { w with priv := { w.priv with companion := c } }

/-! ## Functions called by the file and defined outside it -/

/-- The accessor `nm_device_get_state`. -/
def nm_device_get_state (w : World) (dev : Nat) : NMDeviceState :=
  (w.objs dev).state

/-- The accessor `nm_device_get_act_request`, as a truth value (non-NULL
request).  On a NULL device its `g_return_val_if_fail` guard answers NULL. -/
def nm_device_get_act_request (w : World) (dev : Option Nat) : Bool :=
  match dev with
  | some d => (w.objs d).act_request
  | none => false

/-- The accessor `nm_device_wifi_get_scanning`.  On a NULL device its
`g_return_val_if_fail` guard answers FALSE. -/
def nm_device_wifi_get_scanning (w : World) (dev : Option Nat) : Bool :=
  match dev with
  | some d => (w.objs d).scanning
  | none => false

/-- The accessor `nm_device_get_hw_address`. -/
def nm_device_get_hw_address (w : World) (dev : Nat) : List Nat :=
  (w.objs dev).hw_address

/-- Modelled from the spec: `nm_utils_hwaddr_matches` is not under src/; the
spec asks for an "identical hardware address". -/
def nm_utils_hwaddr_matches (a b : List Nat) : Bool :=
  decide (a = b)

/-- The type check `NM_IS_DEVICE_WIFI`. -/
def NM_IS_DEVICE_WIFI (w : World) (dev : Nat) : Bool :=
  (w.objs dev).is_wifi

/-- Modelled from the spec: `nm_device_state_changed` is defined in
nm-device.c, not under src/.  It puts the device in the new state; the call
is recorded.  What the parent class does next (running the class hook
`state_changed`, emitting the signal to subscribers) arrives at this file as
calls of its own handlers, each embedded below as a function of its own. -/
def nm_device_state_changed (w : World) (dev : Nat) (state : NMDeviceState)
    (reason : NMDeviceStateReason) : World :=
  emit (set_obj w dev { w.objs dev with state := state }) (Effect.state_changed dev state reason)

/-- The call `nm_device_recheck_auto_activate_schedule`: recorded. -/
def nm_device_recheck_auto_activate_schedule (w : World) (dev : Nat) : World :=
  emit w (Effect.recheck_auto_activate_schedule dev)

/-- The call `nm_device_activate_schedule_stage1_device_prepare`: recorded. -/
def nm_device_activate_schedule_stage1_device_prepare (w : World) (dev : Nat)
    (do_sync : Bool) : World :=
  emit w (Effect.activate_schedule_stage1_device_prepare dev do_sync)

/-- The call `nm_device_queue_recheck_available`: recorded. -/
def nm_device_queue_recheck_available (w : World) (dev : Nat) : World :=
  emit w (Effect.queue_recheck_available dev)

/-- Modelled from the spec: `nm_device_add_pending_action` is not under src/.
The pending actions are a set of named flags: the call is recorded and the
action is added unless it is already pending. -/
def nm_device_add_pending_action (w : World) (dev : Nat) (action : PendingAction)
    (assert_not_yet_pending : Bool) : World :=
  let w1 := emit w (Effect.add_pending_action dev action assert_not_yet_pending)
  let d := w1.objs dev
  if action ∈ d.pending_actions then w1
  else set_obj w1 dev { d with pending_actions := d.pending_actions ++ [action] }

/-- Modelled from the spec: `nm_device_remove_pending_action` is not under
src/.  The call is recorded and the action is no longer pending afterwards. -/
def nm_device_remove_pending_action (w : World) (dev : Nat) (action : PendingAction)
    (assert_is_pending : Bool) : World :=
  let w1 := emit w (Effect.remove_pending_action dev action assert_is_pending)
  let d := w1.objs dev
  set_obj w1 dev { d with pending_actions := d.pending_actions.filter (fun a => a ≠ action) }

/-- Modelled from the spec: `nm_device_wifi_scanning_prohibited_track` is
defined in nm-device-wifi.c, not under src/.  The spec describes "a tracked,
named prohibition keyed by this device": the Wi-Fi device keeps the set of
tags that prohibit scanning; TRUE puts the tag in, FALSE takes it out. -/
def nm_device_wifi_scanning_prohibited_track (w : World) (dev : Nat) (tag : Nat)
    (temporarily_prohibited : Bool) : World :=
  let w1 := emit w (Effect.scanning_prohibited_track dev tag temporarily_prohibited)
  let d := w1.objs dev
  if temporarily_prohibited then
    if tag ∈ d.scanning_prohibited_lst then w1
    else set_obj w1 dev { d with scanning_prohibited_lst := tag :: d.scanning_prohibited_lst }
  else
    set_obj w1 dev
      { d with scanning_prohibited_lst := d.scanning_prohibited_lst.filter (fun t => t ≠ tag) }

/-- GLib `g_object_ref`: one more reference on the object, recorded. -/
def g_object_ref (w : World) (object : Nat) : World :=
  emit w (Effect.object_ref object)

/-- GLib `g_object_unref`, the release inside `g_clear_object`: recorded. -/
def g_object_unref (w : World) (object : Nat) : World :=
  emit w (Effect.object_unref object)

/-- GLib `g_signal_connect`: one more handler (instance, signal, user data). -/
def g_signal_connect (w : World) (inst : Nat) (signal : Signal) (data : Nat) : World :=
  let w1 := emit w (Effect.signal_connect inst signal data)
  { w1 with handlers := w1.handlers ++ [(inst, signal, data)] }

/-- GLib `g_signal_handlers_disconnect_by_data`: every handler of the instance
with this user data goes. -/
def g_signal_handlers_disconnect_by_data (w : World) (inst : Nat) (data : Nat) : World :=
  let w1 := emit w (Effect.signal_handlers_disconnect_by_data inst data)
  { w1 with handlers := w1.handlers.filter (fun h => !(h.1 = inst && h.2.2 = data)) }

/-- GLib `g_signal_handlers_disconnect_by_func`: every handler of the instance
with this callback (one per signal in this file) and user data goes. -/
def g_signal_handlers_disconnect_by_func (w : World) (inst : Nat) (signal : Signal)
    (data : Nat) : World :=
  let w1 := emit w (Effect.signal_handlers_disconnect_by_func inst signal data)
  { w1 with handlers := w1.handlers.filter (fun h => !(h.1 = inst && h.2.1 = signal && h.2.2 = data)) }

/-- The call `nm_device_take_down`: recorded. -/
def nm_device_take_down (w : World) (dev : Nat) (block : Bool) : World :=
  emit w (Effect.take_down dev block)

/-- The call `nm_device_bring_up`: recorded (the file ignores its result). -/
def nm_device_bring_up (w : World) (dev : Nat) : World :=
  emit w (Effect.bring_up dev)

/-- The call `nm_platform_mesh_get_channel`. -/
def nm_platform_mesh_get_channel (w : World) : Nat :=
  w.platform.mesh_get_channel

/-- The call `nm_platform_mesh_set_ssid`: recorded, answered by the platform. -/
def nm_platform_mesh_set_ssid (w : World) (ssid : List Nat) : Bool × World :=
  (w.platform.mesh_set_ssid ssid, emit w (Effect.mesh_set_ssid ssid))

/-- The call `nm_platform_mesh_set_channel`: recorded, answered by the platform. -/
def nm_platform_mesh_set_channel (w : World) (channel : Nat) : Bool × World :=
  (w.platform.mesh_set_channel channel, emit w (Effect.mesh_set_channel channel))

/-- The macro `_notify (self, prop)`: a property-change notification, recorded. -/
def _notify (w : World) (prop : Property) : World :=
  emit w (Effect.notify_property w.self prop)

/-! ## The functions of nm-device-olpc-mesh.c -/

/-- The C function `get_autoconnect_allowed` (lines 63-79). -/
def get_autoconnect_allowed (w : World) : Bool :=
  match w.priv.companion with
  | none => false
  | some c =>
    if nm_device_get_state w c > NM_DEVICE_STATE_DISCONNECTED then false
    else true

/-- The C function `act_stage1_prepare` (lines 132-156).  The out-parameter
`out_failure_reason` is never written. -/
def act_stage1_prepare (w : World) : NMActStageReturn × World :=
  let w1 :=
    if nm_device_get_act_request w w.priv.companion then
      match w.priv.companion with
      | some c =>
        nm_device_state_changed w c NM_DEVICE_STATE_DISCONNECTED NMDeviceStateReason.USER_REQUESTED
      | none => w
    else w
  if nm_device_wifi_get_scanning w1 w1.priv.companion then
    (NMActStageReturn.POSTPONE, set_stage1_waiting w1 true)
  else
    (NMActStageReturn.SUCCESS, set_stage1_waiting w1 false)

/-- The C function `act_stage1_prepare` (lines 132-156) once more, with the
outside function `nm_device_state_changed` taken as a parameter: what the
parent class does to the world on the forced transition is not under src/,
and the order of the two steps of the stage shows only against a transition
that may change what the scanning check reads. -/
def act_stage1_prepare_with
    (state_changed_fn : World → Nat → NMDeviceState → NMDeviceStateReason → World)
    (w : World) : NMActStageReturn × World :=
  let w1 :=
    if nm_device_get_act_request w w.priv.companion then
      match w.priv.companion with
      | some c =>
        state_changed_fn w c NM_DEVICE_STATE_DISCONNECTED NMDeviceStateReason.USER_REQUESTED
      | none => w
    else w
  if nm_device_wifi_get_scanning w1 w1.priv.companion then
    (NMActStageReturn.POSTPONE, set_stage1_waiting w1 true)
  else
    (NMActStageReturn.SUCCESS, set_stage1_waiting w1 false)

/-- The C function `_mesh_set_channel` (lines 158-180). -/
def _mesh_set_channel (w : World) (channel : Nat) : Bool × World :=
  let old_channel := nm_platform_mesh_get_channel w
  let channel := if channel = 0 then old_channel else channel
  let r := nm_platform_mesh_set_channel w channel
  if !r.1 then (false, r.2)
  else if old_channel ≠ channel then (true, _notify r.2 Property.PROP_ACTIVE_CHANNEL)
  else (true, r.2)

/-- The C function `act_stage2_config` (lines 182-212). -/
def act_stage2_config (w : World) : NMActStageReturn × World :=
  match w.applied_setting with
  | none => (NMActStageReturn.FAILURE, w)
  | some s_mesh =>
    let ssid := s_mesh.ssid
    let w1 := nm_device_take_down w w.self true
    let r := nm_platform_mesh_set_ssid w1 ssid
    let success := r.1
    let w2 := nm_device_bring_up r.2 w.self
    if !success then (NMActStageReturn.FAILURE, w2)
    else
      let c := _mesh_set_channel w2 s_mesh.channel
      if !c.1 then (NMActStageReturn.FAILURE, c.2)
      else (NMActStageReturn.SUCCESS, c.2)

/-- The C function `is_available` (lines 214-225); `flags` is not read. -/
def is_available (w : World) : Bool :=
  match w.priv.companion with
  | none => false
  | some _ => true

/-- The C function `companion_cleanup` (lines 229-240).  The macro
`g_clear_object` writes NULL to the field and then releases the object. -/
def companion_cleanup (w : World) : World :=
  let w1 :=
    match w.priv.companion with
    | some c =>
      let a := nm_device_wifi_scanning_prohibited_track w c w.self false
      let b := g_signal_handlers_disconnect_by_data a c w.self
      g_object_unref (set_companion b none) c
    | none => w
  _notify w1 Property.PROP_COMPANION

/-- The C function `companion_notify_cb` (lines 242-258).  The two `nm_assert`
lines are compiled out of production builds and do nothing when they hold. -/
def companion_notify_cb (w : World) (companion : Nat) : World :=
  if !w.priv.stage1_waiting then w
  else if !nm_device_wifi_get_scanning w (some companion) then
    nm_device_activate_schedule_stage1_device_prepare (set_stage1_waiting w false) w.self false
  else w

/-- The C function `companion_state_changed_cb` (lines 261-284); `companion`
and `reason` are not read. -/
def companion_state_changed_cb (w : World) (companion : Nat) (state old_state : NMDeviceState)
    (reason : NMDeviceStateReason) : World :=
  let self_state := nm_device_get_state w w.self
  let w1 :=
    if old_state > NM_DEVICE_STATE_DISCONNECTED ∧ state ≤ NM_DEVICE_STATE_DISCONNECTED then
      nm_device_recheck_auto_activate_schedule w w.self
    else w
  if self_state < NM_DEVICE_STATE_PREPARE ∨ self_state > NM_DEVICE_STATE_ACTIVATED
      ∨ state < NM_DEVICE_STATE_PREPARE ∨ state > NM_DEVICE_STATE_ACTIVATED then
    w1
  else
    nm_device_state_changed w1 w1.self NM_DEVICE_STATE_DISCONNECTED
      NMDeviceStateReason.USER_REQUESTED

/-- The C function `companion_autoconnect_allowed_cb` (lines 286-295). -/
def companion_autoconnect_allowed_cb (w : World) (companion : Nat) : Bool :=
  let state := nm_device_get_state w w.self
  decide (state < NM_DEVICE_STATE_PREPARE) || decide (state > NM_DEVICE_STATE_ACTIVATED)

/-- The C function `check_companion` (lines 297-334).  The `nm_assert` on line
311 is compiled out of production builds. -/
def check_companion (w : World) (other : Nat) : Bool × World :=
  if !NM_IS_DEVICE_WIFI w other then (false, w)
  else
    let my_addr := nm_device_get_hw_address w w.self
    let their_addr := nm_device_get_hw_address w other
    if !nm_utils_hwaddr_matches my_addr their_addr then (false, w)
    else
      let w1 := set_companion (g_object_ref w other) (some other)
      let w2 := g_signal_connect w1 other Signal.STATE_CHANGED w.self
      let w3 := g_signal_connect w2 other Signal.NOTIFY_SCANNING w.self
      let w4 := g_signal_connect w3 other Signal.AUTOCONNECT_ALLOWED w.self
      (true, _notify w4 Property.PROP_COMPANION)

/-- The C function `device_added_cb` (lines 336-350). -/
def device_added_cb (w : World) (other : Nat) : World :=
  if w.priv.companion.isSome then w
  else
    let r := check_companion w other
    if r.1 then
      let w1 := nm_device_queue_recheck_available r.2 w.self
      nm_device_remove_pending_action w1 w.self PendingAction.WAITING_FOR_COMPANION false
    else r.2

/-- The C function `device_removed_cb` (lines 352-359). -/
def device_removed_cb (w : World) (other : Nat) : World :=
  if some other = w.priv.companion then companion_cleanup w
  else w

/-- The loop of `find_companion` (lines 374-384) over the devices of the
manager, left at the first candidate that `check_companion` accepts. -/
def find_companion_loop (w : World) : List Nat → World
  | [] => w
  | candidate :: rest =>
    let r := check_companion w candidate
    if r.1 then
      let w1 := nm_device_queue_recheck_available r.2 w.self
      nm_device_remove_pending_action w1 w.self PendingAction.WAITING_FOR_COMPANION true
    else find_companion_loop r.2 rest

/-- The C function `find_companion` (lines 361-385). -/
def find_companion (w : World) : World :=
  if w.priv.companion.isSome then w
  else
    let w1 := nm_device_add_pending_action w w.self PendingAction.WAITING_FOR_COMPANION true
    find_companion_loop w1 w1.manager_devices

/-- The C function `state_changed` (lines 387-410), the class hook run by the
parent class on every transition of the mesh device; `old_state` and `reason`
are not read. -/
def state_changed (w : World) (new_state old_state : NMDeviceState)
    (reason : NMDeviceStateReason) : World :=
  let w1 := if new_state = NM_DEVICE_STATE_UNAVAILABLE then find_companion w else w
  match w1.priv.companion with
  | some c =>
    let temporarily_prohibited :=
      if new_state ≥ NM_DEVICE_STATE_PREPARE ∧ new_state ≤ NM_DEVICE_STATE_IP_CONFIG then true
      else false
    nm_device_wifi_scanning_prohibited_track w1 c w1.self temporarily_prohibited
  | none => w1

/-- The C function `constructed` (lines 449-461), after the parent's part. -/
def constructed (w : World) : World :=
  let w0 := g_object_ref w w.manager_singleton
  let w1 := { w0 with priv := { w0.priv with manager := some w.manager_singleton } }
  let w2 := g_signal_connect w1 w.manager_singleton Signal.DEVICE_ADDED w.self
  g_signal_connect w2 w.manager_singleton Signal.DEVICE_REMOVED w.self

/-- The C function `dispose` (lines 478-493), before the parent's part. -/
def dispose (w : World) : World :=
  let w1 := companion_cleanup w
  match w1.priv.manager with
  | some m =>
    let w2 := g_signal_handlers_disconnect_by_func w1 m Signal.DEVICE_ADDED w1.self
    let w3 := g_signal_handlers_disconnect_by_func w2 m Signal.DEVICE_REMOVED w1.self
    g_object_unref { w3 with priv := { w3.priv with manager := none } } m
  | none => w1

/-! ## Events and observations used to state the properties -/

/-- One delivery of the companion's `notify::scanning` signal: the companion's
scanning flag has taken the value `scanning`, then the handler
`companion_notify_cb` runs with the companion as emitter. -/
def scanning_notification (w : World) (c : Nat) (scanning : Bool) : World :=
  companion_notify_cb (set_obj w c { w.objs c with scanning := scanning }) c

/-- A sequence of deliveries of `notify::scanning`, in order. -/
def scanning_notifications (w : World) (c : Nat) : List Bool → World
  | [] => w
  | b :: bs => scanning_notifications (scanning_notification w c b) c bs

/-- Whether the first occurrence of `a` in the trace comes strictly before the
first occurrence of `b`, both occurring. -/
def precedes (a b : Effect) (t : List Effect) : Bool :=
  decide (a ∈ t) && decide (b ∈ t) && decide (t.indexOf a < t.indexOf b)

/-- The events that reach the mesh device: the class hook run by the parent
class on a transition, the two registry signals, and disposal. -/
inductive Event where
  | state_changed (new_state old_state : NMDeviceState) (reason : NMDeviceStateReason)
  | device_added (other : Nat)
  | device_removed (other : Nat)
  | dispose
  deriving DecidableEq, Repr

/-- The handler of the file that an event runs. -/
def step (w : World) : Event → World
  | Event.state_changed new_state old_state reason => state_changed w new_state old_state reason
  | Event.device_added other => device_added_cb w other
  | Event.device_removed other => device_removed_cb w other
  | Event.dispose => dispose w

/-- A sequence of events, handled in order. -/
def run (w : World) : List Event → World
  | [] => w
  | e :: es => run (step w e) es

/-- Whether the event is a transition of the mesh device to UNAVAILABLE, the
one event on which the hook runs the discovery pass. -/
def is_unavailable_transition : Event → Bool
  | Event.state_changed new_state _ _ => decide (new_state = NM_DEVICE_STATE_UNAVAILABLE)
  | _ => false

/-- Whether the mesh device holds the pending action "waiting for companion". -/
def waiting_for_companion (w : World) : Bool :=
  decide (PendingAction.WAITING_FOR_COMPANION ∈ (w.objs w.self).pending_actions)

/-- Modelled from the spec: signal emission belongs to GLib, not to src/.  The
spec asks for "an explicit event-subscription registry keyed by (emitter,
event-kind)": a `state-changed` signal of `emitter` runs
`companion_state_changed_cb` exactly if the mesh device has a handler
connected for it. -/
def deliver_state_changed (w : World) (emitter : Nat) (state old_state : NMDeviceState)
    (reason : NMDeviceStateReason) : World :=
  if (emitter, Signal.STATE_CHANGED, w.self) ∈ w.handlers then
    companion_state_changed_cb w emitter state old_state reason
  else w

/-- Modelled from the spec: as `deliver_state_changed`, for `notify::scanning`
and `companion_notify_cb`. -/
def deliver_notify_scanning (w : World) (emitter : Nat) : World :=
  if (emitter, Signal.NOTIFY_SCANNING, w.self) ∈ w.handlers then companion_notify_cb w emitter
  else w

/-- Modelled from the spec: as `deliver_state_changed`, for `autoconnect-allowed`
and `companion_autoconnect_allowed_cb`; `none` when the mesh device is not
asked. -/
def deliver_autoconnect_allowed (w : World) (emitter : Nat) : Option Bool :=
  if (emitter, Signal.AUTOCONNECT_ALLOWED, w.self) ∈ w.handlers then
    some (companion_autoconnect_allowed_cb w emitter)
  else none

/-- Whether the call adds the given pending action to the given device. -/
def is_add_pending (dev : Nat) (action : PendingAction) : Effect → Bool
  | Effect.add_pending_action d a _ => decide (d = dev ∧ a = action)
  | _ => false

/-- Whether the call removes the given pending action from the given device. -/
def is_remove_pending (dev : Nat) (action : PendingAction) : Effect → Bool
  | Effect.remove_pending_action d a _ => decide (d = dev ∧ a = action)
  | _ => false

/-- Whether the pending action is set after the calls of a trace, given whether
it was set before them. -/
def pending_after (dev : Nat) (action : PendingAction) : Bool → List Effect → Bool
  | p, [] => p
  | p, e :: t =>
    pending_after dev action
      (if is_add_pending dev action e then true
       else if is_remove_pending dev action e then false else p) t

/-- The flag `assert_not_yet_pending` or `assert_is_pending` a call was made
with (FALSE for calls of other functions). -/
def assert_flag : Effect → Bool
  | Effect.add_pending_action _ _ b => b
  | Effect.remove_pending_action _ _ b => b
  | _ => false

/-- Replay of the calls on one pending action along a trace, from the flag
`p`: every add selected by `check_add` (a predicate on its assert flag) finds
the action absent, and every removal selected by `check_remove` finds it
present. -/
def pending_calls_hold (dev : Nat) (action : PendingAction) (check_add check_remove : Bool → Bool) :
    Bool → List Effect → Bool
  | _, [] => true
  | p, e :: t =>
    if is_add_pending dev action e then
      (!check_add (assert_flag e) || !p)
        && pending_calls_hold dev action check_add check_remove true t
    else if is_remove_pending dev action e then
      (!check_remove (assert_flag e) || p)
        && pending_calls_hold dev action check_add check_remove false t
    else pending_calls_hold dev action check_add check_remove p t

/-- The calls recorded by a `check_companion` that accepts `other`. -/
def binding_calls (self other : Nat) : List Effect :=
  [Effect.object_ref other,
   Effect.signal_connect other Signal.STATE_CHANGED self,
   Effect.signal_connect other Signal.NOTIFY_SCANNING self,
   Effect.signal_connect other Signal.AUTOCONNECT_ALLOWED self,
   Effect.notify_property self Property.PROP_COMPANION]

/-! ## Concrete worlds -/

/-- A device object with every field at rest. -/
def idle_device : NMDevice :=
  { is_wifi := false, hw_address := [], state := NM_DEVICE_STATE_UNKNOWN, act_request := false,
    pending_actions := [], scanning := false, scanning_prohibited_lst := [] }

/-- A platform on which the mesh SSID and the channel can be set or not. -/
def sample_platform (ssid_ok channel_ok : Bool) : NMPlatform :=
  { mesh_get_channel := 1, mesh_set_ssid := fun _ => ssid_ok,
    mesh_set_channel := fun _ => channel_ok }

/-- A mesh device D at address 1 bound to the Wi-Fi device C at address 2, both
with hardware address AA:AA, D in `self_state`, C in `companion_state`. -/
def bound_world (self_state companion_state : NMDeviceState)
    (act_request scanning stage1_waiting : Bool) : World :=
  { self := 1,
    priv := { companion := some 2, manager := some 0, stage1_waiting := stage1_waiting },
    applied_setting := some { ssid := [111, 108, 112, 99], channel := 6 },
    platform := sample_platform true true,
    objs := fun p =>
      if p = 1 then { idle_device with hw_address := [170, 170], state := self_state }
      else if p = 2 then
        { idle_device with is_wifi := true, hw_address := [170, 170], state := companion_state,
                           act_request := act_request, scanning := scanning }
      else idle_device,
    manager_singleton := 0,
    manager_devices := [1, 2],
    handlers := [(0, Signal.DEVICE_ADDED, 1), (0, Signal.DEVICE_REMOVED, 1),
                 (2, Signal.STATE_CHANGED, 1), (2, Signal.NOTIFY_SCANNING, 1),
                 (2, Signal.AUTOCONNECT_ALLOWED, 1)],
    trace := [] }

/-- The world of scenario C: the SSID can be set, the channel cannot. -/
def scenario_C_world : World :=
  { bound_world NM_DEVICE_STATE_CONFIG NM_DEVICE_STATE_DISCONNECTED false false false with
    platform := sample_platform true false }

/-- The world of scenario A once the Wi-Fi device C has entered the registry
and before the mesh device D has looked for it: D at address 1 is unbound and
holds the pending action, the manager knows D and C. -/
def unbound_world (self_state : NMDeviceState) : World :=
  { self := 1,
    priv := { companion := none, manager := some 0, stage1_waiting := false },
    applied_setting := none,
    platform := sample_platform true true,
    objs := fun p =>
      if p = 1 then
        { idle_device with hw_address := [170, 170], state := self_state,
                           pending_actions := [PendingAction.WAITING_FOR_COMPANION] }
      else if p = 2 then { idle_device with is_wifi := true, hw_address := [170, 170] }
      else idle_device,
    manager_singleton := 0,
    manager_devices := [1, 2],
    handlers := [(0, Signal.DEVICE_ADDED, 1), (0, Signal.DEVICE_REMOVED, 1)],
    trace := [] }

/-- A mesh device D at address 1 before `constructed`: no companion, no
manager, nothing pending, nothing recorded; the Wi-Fi devices at addresses 2
and 3 carry D's hardware address AA:AA, the Wi-Fi device at address 4 does
not; `devices` is the list the manager enumerates. -/
def bare_world (devices : List Nat) : World :=
  { self := 1,
    priv := { companion := none, manager := none, stage1_waiting := false },
    applied_setting := none,
    platform := sample_platform true true,
    objs := fun p =>
      if p = 1 then
        { idle_device with hw_address := [170, 170], state := NM_DEVICE_STATE_UNMANAGED }
      else if p = 2 then { idle_device with is_wifi := true, hw_address := [170, 170] }
      else if p = 3 then { idle_device with is_wifi := true, hw_address := [170, 170] }
      else if p = 4 then { idle_device with is_wifi := true, hw_address := [187, 187] }
      else idle_device,
    manager_singleton := 0,
    manager_devices := devices,
    handlers := [],
    trace := [] }

/-- A freshly constructed mesh device. -/
def fresh_world (devices : List Nat) : World :=
  constructed (bare_world devices)

/-- A mesh device D bound to C at address 2 while a second Wi-Fi device with
the same hardware address sits at address 3, ahead of C in the registry. -/
def two_radios_world : World :=
  { bound_world NM_DEVICE_STATE_DISCONNECTED NM_DEVICE_STATE_DISCONNECTED false false false with
    objs := fun p =>
      if p = 1 then
        { idle_device with hw_address := [170, 170], state := NM_DEVICE_STATE_DISCONNECTED }
      else if p = 2 then
        { idle_device with is_wifi := true, hw_address := [170, 170],
                           state := NM_DEVICE_STATE_DISCONNECTED }
      else if p = 3 then { idle_device with is_wifi := true, hw_address := [170, 170] }
      else idle_device,
    manager_devices := [1, 3, 2] }

/-- The mesh device D of `bound_world` torn down in the middle of a
postponement: the Prepare stage ran while the companion was scanning, then D
was put in DISCONNECTED and the parent class ran the hook `state_changed`. -/
def torn_down_world : World :=
  state_changed
    (nm_device_state_changed
      (act_stage1_prepare
        (bound_world NM_DEVICE_STATE_PREPARE NM_DEVICE_STATE_DISCONNECTED false true false)).2
      1 NM_DEVICE_STATE_DISCONNECTED NMDeviceStateReason.USER_REQUESTED)
    NM_DEVICE_STATE_DISCONNECTED NM_DEVICE_STATE_PREPARE NMDeviceStateReason.USER_REQUESTED

/-- One behaviour the outside function `nm_device_state_changed` may have: the
transition is made and recorded, and the device also stops scanning. -/
def nm_device_state_changed_ending_scan (w : World) (dev : Nat) (state : NMDeviceState)
    (reason : NMDeviceStateReason) : World :=
  set_obj (nm_device_state_changed w dev state reason) dev
    { (nm_device_state_changed w dev state reason).objs dev with scanning := false }

/-! ## Projection lemmas -/

@[simp] theorem emit_objs (w : World) (e : Effect) : (emit w e).objs = w.objs := rfl

@[simp] theorem emit_priv (w : World) (e : Effect) : (emit w e).priv = w.priv := rfl

@[simp] theorem emit_self (w : World) (e : Effect) : (emit w e).self = w.self := rfl

@[simp] theorem emit_trace (w : World) (e : Effect) : (emit w e).trace = w.trace ++ [e] := rfl

@[simp] theorem set_obj_priv (w : World) (p : Nat) (d : NMDevice) : (set_obj w p d).priv = w.priv :=
  rfl

@[simp] theorem set_obj_self (w : World) (p : Nat) (d : NMDevice) : (set_obj w p d).self = w.self :=
  rfl

@[simp] theorem set_obj_trace (w : World) (p : Nat) (d : NMDevice) :
    (set_obj w p d).trace = w.trace := rfl

@[simp] theorem set_obj_objs_same (w : World) (p : Nat) (d : NMDevice) :
    (set_obj w p d).objs p = d := by
  simp [set_obj]

theorem set_obj_objs (w : World) (p q : Nat) (d : NMDevice) :
    (set_obj w p d).objs q = if q = p then d else w.objs q := rfl

@[simp] theorem set_stage1_waiting_objs (w : World) (b : Bool) :
    (set_stage1_waiting w b).objs = w.objs := rfl

@[simp] theorem set_stage1_waiting_trace (w : World) (b : Bool) :
    (set_stage1_waiting w b).trace = w.trace := rfl

@[simp] theorem set_stage1_waiting_self (w : World) (b : Bool) :
    (set_stage1_waiting w b).self = w.self := rfl

@[simp] theorem set_stage1_waiting_companion (w : World) (b : Bool) :
    (set_stage1_waiting w b).priv.companion = w.priv.companion := rfl

@[simp] theorem set_stage1_waiting_flag (w : World) (b : Bool) :
    (set_stage1_waiting w b).priv.stage1_waiting = b := rfl

/-- Storing back the object that is already there changes nothing. -/
theorem set_obj_same (w : World) (p : Nat) (d : NMDevice) (h : w.objs p = d) :
    set_obj w p d = w := by
  cases w with
  | mk self priv applied platform objs ms md handlers trace =>
    simp only [set_obj, World.mk.injEq, true_and, and_true]
    funext q
    by_cases hq : q = p
    · subst hq; simpa using h.symm
    · simp [hq]

/-! ## Autoconnect eligibility -/

/-- C7: `get_autoconnect_allowed` answers TRUE exactly when a companion is
bound and the companion's state is at or below DISCONNECTED; with no
companion, and with a companion above DISCONNECTED, it answers FALSE. -/
theorem get_autoconnect_allowed_iff (w : World) :
    (get_autoconnect_allowed w = true ↔
      ∃ c, w.priv.companion = some c ∧
        nm_device_get_state w c ≤ NM_DEVICE_STATE_DISCONNECTED)
    ∧ (get_autoconnect_allowed w = false ↔
      (w.priv.companion = none ∨
        ∃ c, w.priv.companion = some c ∧
          nm_device_get_state w c > NM_DEVICE_STATE_DISCONNECTED)) := by
  unfold get_autoconnect_allowed
  cases hc : w.priv.companion with
  | none => simp
  | some c =>
    by_cases h : nm_device_get_state w c > NM_DEVICE_STATE_DISCONNECTED
    · simp [h]
    · simp [h]
      exact Nat.le_of_not_lt h

/-- C9: `companion_autoconnect_allowed_cb` answers FALSE exactly when the mesh
device's state lies in PREPARE..ACTIVATED inclusive, and TRUE for every state
below PREPARE or above ACTIVATED. -/
theorem companion_autoconnect_allowed_cb_iff (w : World) (companion : Nat) :
    (companion_autoconnect_allowed_cb w companion = false ↔
      (NM_DEVICE_STATE_PREPARE ≤ nm_device_get_state w w.self ∧
        nm_device_get_state w w.self ≤ NM_DEVICE_STATE_ACTIVATED))
    ∧ (companion_autoconnect_allowed_cb w companion = true ↔
      (nm_device_get_state w w.self < NM_DEVICE_STATE_PREPARE ∨
        nm_device_get_state w w.self > NM_DEVICE_STATE_ACTIVATED)) := by
  unfold companion_autoconnect_allowed_cb
  constructor
  · simp only [Bool.or_eq_false_iff, decide_eq_false_iff_not]
    simp only [not_lt, gt_iff_lt]
  · simp only [Bool.or_eq_true, decide_eq_true_eq]

/-! ## Companion state changes -/

/-- The outside calls recorded by `companion_state_changed_cb`, in order. -/
theorem companion_state_changed_cb_trace (w : World) (companion : Nat)
    (state old_state : NMDeviceState) (reason : NMDeviceStateReason) :
    (companion_state_changed_cb w companion state old_state reason).trace =
      w.trace
        ++ (if old_state > NM_DEVICE_STATE_DISCONNECTED ∧ state ≤ NM_DEVICE_STATE_DISCONNECTED
            then [Effect.recheck_auto_activate_schedule w.self] else [])
        ++ (if nm_device_get_state w w.self < NM_DEVICE_STATE_PREPARE
              ∨ nm_device_get_state w w.self > NM_DEVICE_STATE_ACTIVATED
              ∨ state < NM_DEVICE_STATE_PREPARE ∨ state > NM_DEVICE_STATE_ACTIVATED
            then []
            else [Effect.state_changed w.self NM_DEVICE_STATE_DISCONNECTED
                    NMDeviceStateReason.USER_REQUESTED]) := by
  unfold companion_state_changed_cb
  by_cases h1 : old_state > NM_DEVICE_STATE_DISCONNECTED ∧ state ≤ NM_DEVICE_STATE_DISCONNECTED
  · by_cases h2 : nm_device_get_state w w.self < NM_DEVICE_STATE_PREPARE
        ∨ nm_device_get_state w w.self > NM_DEVICE_STATE_ACTIVATED
        ∨ state < NM_DEVICE_STATE_PREPARE ∨ state > NM_DEVICE_STATE_ACTIVATED
    · simp only [h1, h2, and_self, if_true]
      simp [nm_device_recheck_auto_activate_schedule]
    · simp only [h1, h2, and_self, if_true, if_false]
      simp [nm_device_recheck_auto_activate_schedule, nm_device_state_changed]
  · by_cases h2 : nm_device_get_state w w.self < NM_DEVICE_STATE_PREPARE
        ∨ nm_device_get_state w w.self > NM_DEVICE_STATE_ACTIVATED
        ∨ state < NM_DEVICE_STATE_PREPARE ∨ state > NM_DEVICE_STATE_ACTIVATED
    · simp only [h1, h2, if_true, if_false]
      simp
    · simp only [h1, h2, if_false]
      simp [nm_device_state_changed]

/-- C1: on a companion transition (old_state -> state), if the mesh device's
own state and the companion's new state both lie in PREPARE..ACTIVATED
inclusive, `companion_state_changed_cb` drives the mesh device to DISCONNECTED
with reason USER_REQUESTED; if either state is outside that range, no device
object is changed, so the mesh device keeps its state, and no state change is
requested. -/
theorem companion_state_changed_cb_disconnects_mesh (w : World) (companion : Nat)
    (state old_state : NMDeviceState) (reason : NMDeviceStateReason) :
    ((NM_DEVICE_STATE_PREPARE ≤ nm_device_get_state w w.self
        ∧ nm_device_get_state w w.self ≤ NM_DEVICE_STATE_ACTIVATED
        ∧ NM_DEVICE_STATE_PREPARE ≤ state ∧ state ≤ NM_DEVICE_STATE_ACTIVATED) →
      nm_device_get_state (companion_state_changed_cb w companion state old_state reason) w.self
          = NM_DEVICE_STATE_DISCONNECTED
        ∧ (companion_state_changed_cb w companion state old_state reason).trace.getLast?
          = some (Effect.state_changed w.self NM_DEVICE_STATE_DISCONNECTED
                    NMDeviceStateReason.USER_REQUESTED))
    ∧ (¬ (NM_DEVICE_STATE_PREPARE ≤ nm_device_get_state w w.self
        ∧ nm_device_get_state w w.self ≤ NM_DEVICE_STATE_ACTIVATED
        ∧ NM_DEVICE_STATE_PREPARE ≤ state ∧ state ≤ NM_DEVICE_STATE_ACTIVATED) →
      (companion_state_changed_cb w companion state old_state reason).objs = w.objs
        ∧ nm_device_get_state (companion_state_changed_cb w companion state old_state reason)
            w.self = nm_device_get_state w w.self
        ∧ ∀ d s r, Effect.state_changed d s r ∉
            (companion_state_changed_cb w companion state old_state reason).trace.drop
              w.trace.length) := by
  constructor
  · intro h
    have h2 : ¬ (nm_device_get_state w w.self < NM_DEVICE_STATE_PREPARE
        ∨ nm_device_get_state w w.self > NM_DEVICE_STATE_ACTIVATED
        ∨ state < NM_DEVICE_STATE_PREPARE ∨ state > NM_DEVICE_STATE_ACTIVATED) := by
      simp only [NMDeviceState] at *
      omega
    constructor
    · unfold companion_state_changed_cb
      simp only [h2, if_false]
      simp [nm_device_state_changed, nm_device_get_state, set_obj_objs]
      split <;> simp [nm_device_recheck_auto_activate_schedule]
    · rw [companion_state_changed_cb_trace]
      simp only [h2, if_false]
      simp
  · intro h
    have h2 : nm_device_get_state w w.self < NM_DEVICE_STATE_PREPARE
        ∨ nm_device_get_state w w.self > NM_DEVICE_STATE_ACTIVATED
        ∨ state < NM_DEVICE_STATE_PREPARE ∨ state > NM_DEVICE_STATE_ACTIVATED := by
      simp only [NMDeviceState] at *
      omega
    have hobjs : (companion_state_changed_cb w companion state old_state reason).objs = w.objs := by
      unfold companion_state_changed_cb
      simp only [h2, if_true]
      split <;> simp [nm_device_recheck_auto_activate_schedule]
    refine ⟨hobjs, ?_, ?_⟩
    · simp [nm_device_get_state, hobjs]
    · intro d s r
      rw [companion_state_changed_cb_trace]
      simp only [h2, if_true]
      split <;> simp

/-- C10: `companion_state_changed_cb` requests an auto-activate re-evaluation
of the mesh device exactly when the companion's old state was above
DISCONNECTED and its new state is at or below DISCONNECTED, whatever the mesh
device's own state; for every other pair it requests none, and it never
requests one for another device. -/
theorem companion_state_changed_cb_recheck_auto_activate (w : World) (companion : Nat)
    (state old_state : NMDeviceState) (reason : NMDeviceStateReason) (d : Nat) :
    ((companion_state_changed_cb w companion state old_state reason).trace.drop
        w.trace.length).count (Effect.recheck_auto_activate_schedule d)
      = if (old_state > NM_DEVICE_STATE_DISCONNECTED ∧ state ≤ NM_DEVICE_STATE_DISCONNECTED)
            ∧ d = w.self
        then 1 else 0 := by
  rw [companion_state_changed_cb_trace, List.append_assoc, List.drop_left]
  by_cases h1 : old_state > NM_DEVICE_STATE_DISCONNECTED ∧ state ≤ NM_DEVICE_STATE_DISCONNECTED
  · by_cases hd : d = w.self
    · subst hd
      simp only [h1, and_self, if_true]
      split <;> simp
    · have hd2 : ¬ (w.self = d) := fun h => hd h.symm
      simp only [h1, hd, and_false, and_true, and_self, if_true, if_false]
      split <;> simp [List.count_cons, hd2]
  · simp only [h1, false_and, if_false]
    split <;> simp

/-- Scenario D of the spec for C1 (mesh device ACTIVATED, companion enters
PREPARE: the mesh device ends DISCONNECTED), and a transition outside the range
(mesh device DISCONNECTED: no object changes). -/
theorem companion_state_changed_cb_disconnects_mesh_witness :
    (nm_device_get_state
        (companion_state_changed_cb
          (bound_world NM_DEVICE_STATE_ACTIVATED NM_DEVICE_STATE_PREPARE true false false) 2
          NM_DEVICE_STATE_PREPARE NM_DEVICE_STATE_DISCONNECTED NMDeviceStateReason.NONE) 1
      = NM_DEVICE_STATE_DISCONNECTED)
    ∧ ((companion_state_changed_cb
          (bound_world NM_DEVICE_STATE_DISCONNECTED NM_DEVICE_STATE_PREPARE true false false) 2
          NM_DEVICE_STATE_PREPARE NM_DEVICE_STATE_DISCONNECTED NMDeviceStateReason.NONE).objs
      = (bound_world NM_DEVICE_STATE_DISCONNECTED NM_DEVICE_STATE_PREPARE true false false).objs) :=
  ⟨((companion_state_changed_cb_disconnects_mesh
        (bound_world NM_DEVICE_STATE_ACTIVATED NM_DEVICE_STATE_PREPARE true false false) 2
        NM_DEVICE_STATE_PREPARE NM_DEVICE_STATE_DISCONNECTED NMDeviceStateReason.NONE).1
      (by decide)).1,
   ((companion_state_changed_cb_disconnects_mesh
        (bound_world NM_DEVICE_STATE_DISCONNECTED NM_DEVICE_STATE_PREPARE true false false) 2
        NM_DEVICE_STATE_PREPARE NM_DEVICE_STATE_DISCONNECTED NMDeviceStateReason.NONE).2
      (by decide)).1⟩

/-! ## The Prepare stage -/

/-- The scanning flag of a device is not touched by `nm_device_state_changed`. -/
theorem nm_device_wifi_get_scanning_state_changed (w : World) (dev : Nat) (st : NMDeviceState)
    (r : NMDeviceStateReason) (c : Option Nat) :
    nm_device_wifi_get_scanning (nm_device_state_changed w dev st r) c
      = nm_device_wifi_get_scanning w c := by
  cases c with
  | none => rfl
  | some c =>
    simp only [nm_device_wifi_get_scanning, nm_device_state_changed, emit_objs, set_obj_objs]
    split
    · rename_i h; subst h; rfl
    · rfl

/-- The private fields are not touched by `nm_device_state_changed`. -/
theorem nm_device_state_changed_priv (w : World) (dev : Nat) (st : NMDeviceState)
    (r : NMDeviceStateReason) : (nm_device_state_changed w dev st r).priv = w.priv := rfl

/-- With a companion holding an activation request, `act_stage1_prepare`
disconnects it and then sets the flag and the result by the scanning flag. -/
theorem act_stage1_prepare_active (w : World) (c : Nat) (hc : w.priv.companion = some c)
    (ha : nm_device_get_act_request w (some c) = true) :
    act_stage1_prepare w
      = (if nm_device_wifi_get_scanning w (some c) then NMActStageReturn.POSTPONE
         else NMActStageReturn.SUCCESS,
         set_stage1_waiting
           (nm_device_state_changed w c NM_DEVICE_STATE_DISCONNECTED
             NMDeviceStateReason.USER_REQUESTED)
           (nm_device_wifi_get_scanning w (some c))) := by
  unfold act_stage1_prepare
  simp only [hc, ha, if_true, nm_device_state_changed_priv,
    nm_device_wifi_get_scanning_state_changed]
  cases nm_device_wifi_get_scanning w (some c) <;> simp

/-- With a companion holding no activation request, `act_stage1_prepare` only
sets the flag and the result by the scanning flag. -/
theorem act_stage1_prepare_idle (w : World) (c : Nat) (hc : w.priv.companion = some c)
    (ha : nm_device_get_act_request w (some c) = false) :
    act_stage1_prepare w
      = (if nm_device_wifi_get_scanning w (some c) then NMActStageReturn.POSTPONE
         else NMActStageReturn.SUCCESS,
         set_stage1_waiting w (nm_device_wifi_get_scanning w (some c))) := by
  unfold act_stage1_prepare
  simp only [hc, ha, Bool.false_eq_true, if_false]
  cases nm_device_wifi_get_scanning w (some c) <;> simp

/-- Without companion, `act_stage1_prepare` succeeds and clears the flag. -/
theorem act_stage1_prepare_unbound (w : World) (hc : w.priv.companion = none) :
    act_stage1_prepare w = (NMActStageReturn.SUCCESS, set_stage1_waiting w false) := by
  unfold act_stage1_prepare
  simp [hc, nm_device_get_act_request, nm_device_wifi_get_scanning]

/-- C2: for a bound mesh device, if the companion holds an activation request,
`act_stage1_prepare` forces the companion to DISCONNECTED (one recorded call,
reason USER_REQUESTED) whatever result it returns, and it does so before the
scanning check is made: whatever the forced transition does to the world
(`state_changed_fn`, any behaviour of the outside function), the scanning
check reads the world after the transition, the companion pointer included,
and the stage returns that world with the flag set by the check; so when the
transition leaves the companion in DISCONNECTED, the stage returns it in
DISCONNECTED for either result.  If the companion holds no activation
request, the transition is not made: no device object is changed and nothing
is requested, so the companion keeps its state. -/
theorem act_stage1_prepare_disconnects_companion (w : World) (c : Nat)
    (hc : w.priv.companion = some c)
    (state_changed_fn : World → Nat → NMDeviceState → NMDeviceStateReason → World) :
    act_stage1_prepare w = act_stage1_prepare_with nm_device_state_changed w
    ∧ (nm_device_get_act_request w (some c) = true →
      nm_device_get_state (act_stage1_prepare w).2 c = NM_DEVICE_STATE_DISCONNECTED
        ∧ (act_stage1_prepare w).2.trace
            = w.trace ++ [Effect.state_changed c NM_DEVICE_STATE_DISCONNECTED
                            NMDeviceStateReason.USER_REQUESTED]
        ∧ (act_stage1_prepare w).1
            = (if nm_device_wifi_get_scanning
                    (nm_device_state_changed w c NM_DEVICE_STATE_DISCONNECTED
                      NMDeviceStateReason.USER_REQUESTED) (some c)
               then NMActStageReturn.POSTPONE else NMActStageReturn.SUCCESS)
        ∧ act_stage1_prepare_with state_changed_fn w
            = (if nm_device_wifi_get_scanning
                    (state_changed_fn w c NM_DEVICE_STATE_DISCONNECTED
                      NMDeviceStateReason.USER_REQUESTED)
                    (state_changed_fn w c NM_DEVICE_STATE_DISCONNECTED
                      NMDeviceStateReason.USER_REQUESTED).priv.companion
               then (NMActStageReturn.POSTPONE,
                      set_stage1_waiting
                        (state_changed_fn w c NM_DEVICE_STATE_DISCONNECTED
                          NMDeviceStateReason.USER_REQUESTED) true)
               else (NMActStageReturn.SUCCESS,
                      set_stage1_waiting
                        (state_changed_fn w c NM_DEVICE_STATE_DISCONNECTED
                          NMDeviceStateReason.USER_REQUESTED) false))
        ∧ (nm_device_get_state
              (state_changed_fn w c NM_DEVICE_STATE_DISCONNECTED
                NMDeviceStateReason.USER_REQUESTED) c = NM_DEVICE_STATE_DISCONNECTED →
            nm_device_get_state (act_stage1_prepare_with state_changed_fn w).2 c
              = NM_DEVICE_STATE_DISCONNECTED))
    ∧ (nm_device_get_act_request w (some c) = false →
      (act_stage1_prepare w).2.objs = w.objs
        ∧ nm_device_get_state (act_stage1_prepare w).2 c = nm_device_get_state w c
        ∧ (act_stage1_prepare w).2.trace = w.trace
        ∧ act_stage1_prepare_with state_changed_fn w = act_stage1_prepare w) := by
  refine ⟨rfl, ?_, ?_⟩
  · intro ha
    have hgen : act_stage1_prepare_with state_changed_fn w
        = (if nm_device_wifi_get_scanning
                (state_changed_fn w c NM_DEVICE_STATE_DISCONNECTED
                  NMDeviceStateReason.USER_REQUESTED)
                (state_changed_fn w c NM_DEVICE_STATE_DISCONNECTED
                  NMDeviceStateReason.USER_REQUESTED).priv.companion
           then (NMActStageReturn.POSTPONE,
                  set_stage1_waiting
                    (state_changed_fn w c NM_DEVICE_STATE_DISCONNECTED
                      NMDeviceStateReason.USER_REQUESTED) true)
           else (NMActStageReturn.SUCCESS,
                  set_stage1_waiting
                    (state_changed_fn w c NM_DEVICE_STATE_DISCONNECTED
                      NMDeviceStateReason.USER_REQUESTED) false)) := by
      unfold act_stage1_prepare_with
      simp only [hc, ha, if_true]
    refine ⟨?_, ?_, ?_, hgen, ?_⟩
    · rw [act_stage1_prepare_active w c hc ha]
      simp [nm_device_get_state, nm_device_state_changed]
    · rw [act_stage1_prepare_active w c hc ha]
      simp [nm_device_state_changed]
    · rw [act_stage1_prepare_active w c hc ha, nm_device_wifi_get_scanning_state_changed]
    · intro hst
      rw [hgen]
      split <;> exact hst
  · intro ha
    refine ⟨?_, ?_, ?_, ?_⟩
    · rw [act_stage1_prepare_idle w c hc ha]; rfl
    · rw [act_stage1_prepare_idle w c hc ha]; rfl
    · rw [act_stage1_prepare_idle w c hc ha]; rfl
    · unfold act_stage1_prepare_with act_stage1_prepare
      simp only [hc, ha, Bool.false_eq_true, if_false]

/-- Scenario B of the spec for C2: the companion is ACTIVATED with an
activation request and scanning.  It ends DISCONNECTED; against a transition
that also stops the scan, the stage succeeds, because the check is made after
the transition; and a companion without activation request keeps its
state. -/
theorem act_stage1_prepare_disconnects_companion_witness :
    (nm_device_get_state
        (act_stage1_prepare
          (bound_world NM_DEVICE_STATE_PREPARE NM_DEVICE_STATE_ACTIVATED true true false)).2 2
      = NM_DEVICE_STATE_DISCONNECTED)
    ∧ ((act_stage1_prepare_with nm_device_state_changed_ending_scan
          (bound_world NM_DEVICE_STATE_PREPARE NM_DEVICE_STATE_ACTIVATED true true false)).1
      = NMActStageReturn.SUCCESS)
    ∧ (nm_device_get_state
        (act_stage1_prepare_with nm_device_state_changed_ending_scan
          (bound_world NM_DEVICE_STATE_PREPARE NM_DEVICE_STATE_ACTIVATED true true false)).2 2
      = NM_DEVICE_STATE_DISCONNECTED)
    ∧ ((act_stage1_prepare
          (bound_world NM_DEVICE_STATE_PREPARE NM_DEVICE_STATE_DISCONNECTED false true false)).2.objs
      = (bound_world NM_DEVICE_STATE_PREPARE NM_DEVICE_STATE_DISCONNECTED false true false).objs) :=
  ⟨((act_stage1_prepare_disconnects_companion
        (bound_world NM_DEVICE_STATE_PREPARE NM_DEVICE_STATE_ACTIVATED true true false) 2 rfl
        nm_device_state_changed).2.1 rfl).1,
   (congrArg Prod.fst
      ((act_stage1_prepare_disconnects_companion
        (bound_world NM_DEVICE_STATE_PREPARE NM_DEVICE_STATE_ACTIVATED true true false) 2 rfl
        nm_device_state_changed_ending_scan).2.1 rfl).2.2.2.1).trans rfl,
   ((act_stage1_prepare_disconnects_companion
        (bound_world NM_DEVICE_STATE_PREPARE NM_DEVICE_STATE_ACTIVATED true true false) 2 rfl
        nm_device_state_changed_ending_scan).2.1 rfl).2.2.2.2 rfl,
   ((act_stage1_prepare_disconnects_companion
        (bound_world NM_DEVICE_STATE_PREPARE NM_DEVICE_STATE_DISCONNECTED false true false) 2
        rfl nm_device_state_changed).2.2 rfl).1⟩

/-- The result of `act_stage1_prepare`, the flag it leaves and the scanning
flag and companion it leaves, by the companion's scanning flag before. -/
theorem act_stage1_prepare_cases (w : World) :
    (act_stage1_prepare w).1
        = (if nm_device_wifi_get_scanning w w.priv.companion then NMActStageReturn.POSTPONE
           else NMActStageReturn.SUCCESS)
    ∧ (act_stage1_prepare w).2.priv.stage1_waiting
        = nm_device_wifi_get_scanning w w.priv.companion
    ∧ (act_stage1_prepare w).2.priv.companion = w.priv.companion
    ∧ ∀ c, nm_device_wifi_get_scanning (act_stage1_prepare w).2 c
        = nm_device_wifi_get_scanning w c := by
  cases hc : w.priv.companion with
  | none =>
    rw [act_stage1_prepare_unbound w hc]
    exact ⟨rfl, rfl, hc, fun _ => rfl⟩
  | some c =>
    cases ha : nm_device_get_act_request w (some c) with
    | true =>
      rw [act_stage1_prepare_active w c hc ha]
      exact ⟨rfl, rfl, hc, fun c2 =>
        nm_device_wifi_get_scanning_state_changed w c NM_DEVICE_STATE_DISCONNECTED
          NMDeviceStateReason.USER_REQUESTED c2⟩
    | false =>
      rw [act_stage1_prepare_idle w c hc ha]
      exact ⟨rfl, rfl, hc, fun _ => rfl⟩

/-- C3: `act_stage1_prepare` returns POSTPONE exactly when the companion reports
scanning, SUCCESS exactly when it does not, and never FAILURE; after the call
`stage1_waiting` equals the companion's scanning value, so the flag is raised
exactly on POSTPONE and cleared exactly on SUCCESS. -/
theorem act_stage1_prepare_postpone_iff_scanning (w : World) :
    ((act_stage1_prepare w).1 = NMActStageReturn.POSTPONE
        ↔ nm_device_wifi_get_scanning w w.priv.companion = true)
    ∧ ((act_stage1_prepare w).1 = NMActStageReturn.SUCCESS
        ↔ nm_device_wifi_get_scanning w w.priv.companion = false)
    ∧ (act_stage1_prepare w).1 ≠ NMActStageReturn.FAILURE
    ∧ (act_stage1_prepare w).2.priv.stage1_waiting
        = nm_device_wifi_get_scanning (act_stage1_prepare w).2
            (act_stage1_prepare w).2.priv.companion
    ∧ ((act_stage1_prepare w).2.priv.stage1_waiting = true
        ↔ (act_stage1_prepare w).1 = NMActStageReturn.POSTPONE)
    ∧ ((act_stage1_prepare w).2.priv.stage1_waiting = false
        ↔ (act_stage1_prepare w).1 = NMActStageReturn.SUCCESS) := by
  obtain ⟨h1, h2, h3, h4⟩ := act_stage1_prepare_cases w
  rw [h4, h3, h2, h1]
  cases nm_device_wifi_get_scanning w w.priv.companion <;> simp

/-! ## Resuming the Prepare stage -/

/-- One delivery of `notify::scanning`: the handler schedules stage 1 and clears
the flag when the flag is set and scanning is over, and does nothing to the
world it finds otherwise. -/
theorem scanning_notification_eq (v : World) (c : Nat) (b : Bool) :
    scanning_notification v c b
      = if v.priv.stage1_waiting && !b then
          nm_device_activate_schedule_stage1_device_prepare
            (set_stage1_waiting (set_obj v c { v.objs c with scanning := b }) false) v.self false
        else set_obj v c { v.objs c with scanning := b } := by
  unfold scanning_notification companion_notify_cb
  cases hf : v.priv.stage1_waiting <;> cases b <;>
    simp [hf, nm_device_wifi_get_scanning]

/-- A run of deliveries of `notify::scanning`: what it adds to the trace and
what it leaves in the flag. -/
theorem scanning_notifications_spec (c : Nat) (bs : List Bool) :
    ∀ v : World,
      (scanning_notifications v c bs).trace
          = v.trace ++ (if v.priv.stage1_waiting && !bs.all id
              then [Effect.activate_schedule_stage1_device_prepare v.self false] else [])
      ∧ (scanning_notifications v c bs).priv.stage1_waiting
          = (v.priv.stage1_waiting && bs.all id)
      ∧ (scanning_notifications v c bs).priv.companion = v.priv.companion
      ∧ (scanning_notifications v c bs).self = v.self := by
  induction bs with
  | nil => intro v; simp [scanning_notifications]
  | cons b bs ih =>
    intro v
    simp only [scanning_notifications]
    obtain ⟨h1, h2, h3, h4⟩ := ih (scanning_notification v c b)
    rw [h1, h2, h3, h4, scanning_notification_eq]
    cases hf : v.priv.stage1_waiting <;> cases b <;>
      simp [hf, nm_device_activate_schedule_stage1_device_prepare, set_stage1_waiting, set_obj,
        emit]

/-- Deliveries that all report scanning still true leave a waiting world whose
companion is scanning exactly as it was. -/
theorem scanning_notifications_all_true (c : Nat) (bs : List Bool) (v : World)
    (hs : (v.objs c).scanning = true) (hb : bs.all id = true) :
    scanning_notifications v c bs = v := by
  induction bs with
  | nil => rfl
  | cons b bs ih =>
    simp only [List.all_cons, Bool.and_eq_true, id] at hb
    have hstep : scanning_notification v c b = v := by
      rw [scanning_notification_eq, hb.1]
      simp only [Bool.not_true, Bool.and_false, Bool.false_eq_true, if_false]
      apply set_obj_same
      cases hv : v.objs c
      simp [hv] at hs
      simp [hs]
    simp only [scanning_notifications, hstep]
    exact ih hb.2

/-- C4: after one POSTPONE of the Prepare stage (the flag is set), for every
sequence of scanning notifications from the companion the trace gains the
call scheduling stage 1 exactly once if some notification reports scanning
false and not at all otherwise, and the flag is set exactly while every
notification so far reported scanning true; as this holds of every sequence,
hence of every prefix, the call is made at the first notification with
scanning false, which clears the flag.  Notifications with scanning still
true leave the whole world as it was, and the handler returns the world
unchanged whenever the flag is not set (cleared or never set) or the
companion still scans. -/
theorem companion_notify_cb_reschedules_once (w : World) (c : Nat)
    (hc : w.priv.companion = some c)
    (hp : (act_stage1_prepare w).1 = NMActStageReturn.POSTPONE) :
    (act_stage1_prepare w).2.priv.stage1_waiting = true
    ∧ (∀ bs : List Bool,
        (scanning_notifications (act_stage1_prepare w).2 c bs).trace
            = (act_stage1_prepare w).2.trace
                ++ (if bs.all id then []
                    else [Effect.activate_schedule_stage1_device_prepare w.self false])
          ∧ (scanning_notifications (act_stage1_prepare w).2 c bs).priv.stage1_waiting
            = bs.all id)
    ∧ (∀ pre post : List Bool, pre.all id = true →
        scanning_notifications (act_stage1_prepare w).2 c pre = (act_stage1_prepare w).2
          ∧ (scanning_notifications (act_stage1_prepare w).2 c (pre ++ [false])).trace
              = (act_stage1_prepare w).2.trace
                  ++ [Effect.activate_schedule_stage1_device_prepare w.self false]
          ∧ (scanning_notifications (act_stage1_prepare w).2 c
                (pre ++ [false])).priv.stage1_waiting = false
          ∧ (scanning_notifications (act_stage1_prepare w).2 c (pre ++ false :: post)).trace
              = (scanning_notifications (act_stage1_prepare w).2 c (pre ++ [false])).trace)
    ∧ (∀ (v : World) (d : Nat),
        (v.priv.stage1_waiting = false ∨ nm_device_wifi_get_scanning v (some d) = true) →
          companion_notify_cb v d = v) := by
  obtain ⟨h1, h2, h3, h4⟩ := act_stage1_prepare_cases w
  have hscan : nm_device_wifi_get_scanning w w.priv.companion = true := by
    rw [h1] at hp
    cases hs : nm_device_wifi_get_scanning w w.priv.companion
    · simp [hs] at hp
    · rfl
  have hflag : (act_stage1_prepare w).2.priv.stage1_waiting = true := by rw [h2, hscan]
  have hself : (act_stage1_prepare w).2.self = w.self := by
    cases ha : nm_device_get_act_request w (some c) with
    | true => rw [act_stage1_prepare_active w c hc ha]; rfl
    | false => rw [act_stage1_prepare_idle w c hc ha]; rfl
  have hobj : ((act_stage1_prepare w).2.objs c).scanning = true := by
    have := h4 (some c)
    rw [hc] at hscan
    rw [hscan] at this
    exact this
  have hall : ∀ bs : List Bool,
      (scanning_notifications (act_stage1_prepare w).2 c bs).trace
          = (act_stage1_prepare w).2.trace
              ++ (if bs.all id then []
                  else [Effect.activate_schedule_stage1_device_prepare w.self false])
        ∧ (scanning_notifications (act_stage1_prepare w).2 c bs).priv.stage1_waiting
          = bs.all id := by
    intro bs
    obtain ⟨t1, t2, _, _⟩ := scanning_notifications_spec c bs (act_stage1_prepare w).2
    rw [t1, t2, hflag, hself]
    cases bs.all id <;> simp
  refine ⟨hflag, hall, ?_, ?_⟩
  · intro pre post hpre
    have e1 : (pre ++ [false]).all id = false := by simp
    have e2 : (pre ++ false :: post).all id = false := by simp
    refine ⟨scanning_notifications_all_true c pre _ hobj hpre, ?_, ?_, ?_⟩
    · rw [(hall (pre ++ [false])).1, e1]; simp
    · rw [(hall (pre ++ [false])).2, e1]
    · rw [(hall (pre ++ [false])).1, (hall (pre ++ false :: post)).1, e1, e2]
  · intro v d hv
    unfold companion_notify_cb
    rcases hv with hv | hv
    · simp [hv]
    · simp [hv]

/-- Scenario B of the spec for C4: the companion scans when the Prepare stage
runs; two notifications with scanning true, one with scanning false and one
more with scanning true schedule stage 1 once, the first two change nothing,
and the handler leaves a world whose flag is not set as it is. -/
theorem companion_notify_cb_reschedules_once_witness :
    ((scanning_notifications
        (act_stage1_prepare
          (bound_world NM_DEVICE_STATE_PREPARE NM_DEVICE_STATE_DISCONNECTED false true false)).2
        2 [true, true, false, true]).trace
      = (act_stage1_prepare
          (bound_world NM_DEVICE_STATE_PREPARE NM_DEVICE_STATE_DISCONNECTED false true false)).2.trace
          ++ [Effect.activate_schedule_stage1_device_prepare 1 false])
    ∧ (scanning_notifications
        (act_stage1_prepare
          (bound_world NM_DEVICE_STATE_PREPARE NM_DEVICE_STATE_DISCONNECTED false true false)).2
        2 [true, true]
      = (act_stage1_prepare
          (bound_world NM_DEVICE_STATE_PREPARE NM_DEVICE_STATE_DISCONNECTED false true false)).2)
    ∧ (companion_notify_cb
        (bound_world NM_DEVICE_STATE_PREPARE NM_DEVICE_STATE_DISCONNECTED false false false) 2
      = bound_world NM_DEVICE_STATE_PREPARE NM_DEVICE_STATE_DISCONNECTED false false false) :=
  ⟨((companion_notify_cb_reschedules_once
      (bound_world NM_DEVICE_STATE_PREPARE NM_DEVICE_STATE_DISCONNECTED false true false) 2 rfl
      (by decide)).2.1 [true, true, false, true]).1,
   ((companion_notify_cb_reschedules_once
      (bound_world NM_DEVICE_STATE_PREPARE NM_DEVICE_STATE_DISCONNECTED false true false) 2 rfl
      (by decide)).2.2.1 [true, true] [true] rfl).1,
   (companion_notify_cb_reschedules_once
      (bound_world NM_DEVICE_STATE_PREPARE NM_DEVICE_STATE_DISCONNECTED false true false) 2 rfl
      (by decide)).2.2.2
      (bound_world NM_DEVICE_STATE_PREPARE NM_DEVICE_STATE_DISCONNECTED false false false) 2
      (Or.inl rfl)⟩

/-! ## The Config stage -/

/-- The result of `_mesh_set_channel` and the outside calls it records. -/
theorem _mesh_set_channel_eq (w : World) (channel : Nat) :
    (_mesh_set_channel w channel).1
        = w.platform.mesh_set_channel
            (if channel = 0 then w.platform.mesh_get_channel else channel)
    ∧ (_mesh_set_channel w channel).2.trace
        = w.trace ++
          Effect.mesh_set_channel (if channel = 0 then w.platform.mesh_get_channel else channel)
            :: (if w.platform.mesh_set_channel
                    (if channel = 0 then w.platform.mesh_get_channel else channel)
                  && decide (w.platform.mesh_get_channel
                    ≠ (if channel = 0 then w.platform.mesh_get_channel else channel))
                then [Effect.notify_property w.self Property.PROP_ACTIVE_CHANNEL]
                else []) := by
  unfold _mesh_set_channel
  simp only [nm_platform_mesh_set_channel, nm_platform_mesh_get_channel]
  cases h2 : w.platform.mesh_set_channel
      (if channel = 0 then w.platform.mesh_get_channel else channel)
  · simp
  · by_cases h3 : w.platform.mesh_get_channel
        = (if channel = 0 then w.platform.mesh_get_channel else channel)
    · have h4 : ¬ (w.platform.mesh_get_channel
          ≠ (if channel = 0 then w.platform.mesh_get_channel else channel)) := fun h => h h3
      simp only [Bool.not_true, Bool.false_eq_true, if_false, h4, decide_False, Bool.and_false]
      simp
    · simp only [Bool.not_true, Bool.false_eq_true, if_false, ne_eq, h3, not_false_eq_true,
        if_true, decide_True, Bool.and_true]
      simp [_notify]

/-- The result of `act_stage2_config` and the outside calls it records, in
order, when the applied mesh setting exists. -/
theorem act_stage2_config_some (w : World) (s : NMSettingOlpcMesh)
    (hs : w.applied_setting = some s) :
    (act_stage2_config w).1
        = (if w.platform.mesh_set_ssid s.ssid
              && w.platform.mesh_set_channel
                  (if s.channel = 0 then w.platform.mesh_get_channel else s.channel)
           then NMActStageReturn.SUCCESS else NMActStageReturn.FAILURE)
    ∧ (act_stage2_config w).2.trace
        = w.trace
          ++ [Effect.take_down w.self true, Effect.mesh_set_ssid s.ssid, Effect.bring_up w.self]
          ++ (if w.platform.mesh_set_ssid s.ssid then
                Effect.mesh_set_channel
                    (if s.channel = 0 then w.platform.mesh_get_channel else s.channel)
                  :: (if w.platform.mesh_set_channel
                          (if s.channel = 0 then w.platform.mesh_get_channel else s.channel)
                        && decide (w.platform.mesh_get_channel
                          ≠ (if s.channel = 0 then w.platform.mesh_get_channel else s.channel))
                      then [Effect.notify_property w.self Property.PROP_ACTIVE_CHANNEL]
                      else [])
              else []) := by
  have hc := _mesh_set_channel_eq
    (nm_device_bring_up (nm_platform_mesh_set_ssid (nm_device_take_down w w.self true) s.ssid).2
      w.self) s.channel
  have hp : (nm_device_bring_up
      (nm_platform_mesh_set_ssid (nm_device_take_down w w.self true) s.ssid).2 w.self).platform
        = w.platform := rfl
  have ht : (nm_device_bring_up
      (nm_platform_mesh_set_ssid (nm_device_take_down w w.self true) s.ssid).2 w.self).trace
        = w.trace ++ [Effect.take_down w.self true, Effect.mesh_set_ssid s.ssid,
            Effect.bring_up w.self] := by
    simp [nm_device_bring_up, nm_platform_mesh_set_ssid, nm_device_take_down]
  have hself : (nm_device_bring_up
      (nm_platform_mesh_set_ssid (nm_device_take_down w w.self true) s.ssid).2 w.self).self
        = w.self := rfl
  rw [hp, ht, hself] at hc
  have h0 : (nm_platform_mesh_set_ssid (nm_device_take_down w w.self true) s.ssid).1
      = w.platform.mesh_set_ssid s.ssid := rfl
  unfold act_stage2_config
  simp only [hs, h0]
  cases h1 : w.platform.mesh_set_ssid s.ssid
  · simp [ht]
  · cases h2 : w.platform.mesh_set_channel
        (if s.channel = 0 then w.platform.mesh_get_channel else s.channel)
    · simp only [Bool.not_true, Bool.false_eq_true, if_false, hc.1, h2, Bool.not_false, if_true,
        Bool.and_false, hc.2, Bool.false_and]
      simp
    · simp only [Bool.not_true, Bool.false_eq_true, if_false, hc.1, h2, Bool.and_true, if_true,
        hc.2, Bool.true_and]
      simp

/-- The outside calls recorded during `act_stage2_config`, when the applied
mesh setting exists. -/
theorem act_stage2_config_new_calls (w : World) (s : NMSettingOlpcMesh)
    (hs : w.applied_setting = some s) :
    (act_stage2_config w).2.trace.drop w.trace.length
      = Effect.take_down w.self true :: Effect.mesh_set_ssid s.ssid :: Effect.bring_up w.self
          :: (if w.platform.mesh_set_ssid s.ssid then
                Effect.mesh_set_channel
                    (if s.channel = 0 then w.platform.mesh_get_channel else s.channel)
                  :: (if w.platform.mesh_set_channel
                          (if s.channel = 0 then w.platform.mesh_get_channel else s.channel)
                        && decide (w.platform.mesh_get_channel
                          ≠ (if s.channel = 0 then w.platform.mesh_get_channel else s.channel))
                      then [Effect.notify_property w.self Property.PROP_ACTIVE_CHANNEL]
                      else [])
              else []) := by
  rw [(act_stage2_config_some w s hs).2, List.append_assoc, List.drop_left]
  rfl

/-- C5: in every run of `act_stage2_config` with an applied mesh setting, the
interface is taken down and then brought up again whatever the platform
answers; the stage returns FAILURE exactly when setting the SSID fails or
setting the channel fails, and SUCCESS otherwise; in particular, when the
SSID call succeeds and the channel call fails the result is FAILURE and the
interface has been brought up. -/
theorem act_stage2_config_failure_iff (w : World) (s : NMSettingOlpcMesh)
    (hs : w.applied_setting = some s) :
    (∃ rest, (act_stage2_config w).2.trace
        = w.trace ++ Effect.take_down w.self true :: Effect.mesh_set_ssid s.ssid
            :: Effect.bring_up w.self :: rest)
    ∧ precedes (Effect.take_down w.self true) (Effect.bring_up w.self)
        ((act_stage2_config w).2.trace.drop w.trace.length) = true
    ∧ ((act_stage2_config w).1 = NMActStageReturn.FAILURE ↔
        (w.platform.mesh_set_ssid s.ssid = false
          ∨ w.platform.mesh_set_channel
              (if s.channel = 0 then w.platform.mesh_get_channel else s.channel) = false))
    ∧ ((act_stage2_config w).1 = NMActStageReturn.SUCCESS ↔
        (w.platform.mesh_set_ssid s.ssid = true
          ∧ w.platform.mesh_set_channel
              (if s.channel = 0 then w.platform.mesh_get_channel else s.channel) = true))
    ∧ (w.platform.mesh_set_ssid s.ssid = true →
        w.platform.mesh_set_channel
            (if s.channel = 0 then w.platform.mesh_get_channel else s.channel) = false →
        (act_stage2_config w).1 = NMActStageReturn.FAILURE
          ∧ Effect.bring_up w.self ∈ (act_stage2_config w).2.trace.drop w.trace.length) := by
  have hr := (act_stage2_config_some w s hs).1
  have hn := act_stage2_config_new_calls w s hs
  refine ⟨?_, ?_, ?_, ?_, ?_⟩
  · rw [(act_stage2_config_some w s hs).2, List.append_assoc]
    exact ⟨_, rfl⟩
  · rw [hn]
    simp [precedes, List.indexOf_cons]
  · rw [hr]
    cases w.platform.mesh_set_ssid s.ssid <;>
      cases w.platform.mesh_set_channel
        (if s.channel = 0 then w.platform.mesh_get_channel else s.channel) <;> simp
  · rw [hr]
    cases w.platform.mesh_set_ssid s.ssid <;>
      cases w.platform.mesh_set_channel
        (if s.channel = 0 then w.platform.mesh_get_channel else s.channel) <;> simp
  · intro h1 h2
    rw [hr, hn, h1, h2]
    simp

/-- Scenario C of the spec for C5: the SSID call succeeds, the channel call
fails; the stage returns FAILURE and the interface has been brought up. -/
theorem act_stage2_config_failure_iff_witness :
    (act_stage2_config scenario_C_world).1 = NMActStageReturn.FAILURE
    ∧ Effect.bring_up 1 ∈ (act_stage2_config scenario_C_world).2.trace.drop 0 :=
  (act_stage2_config_failure_iff scenario_C_world { ssid := [111, 108, 112, 99], channel := 6 }
    rfl).2.2.2.2 rfl rfl

/-- C6, the claim as stated fails: in the run where both platform calls
succeed the channel is applied after the interface was brought up, not
before. -/
theorem act_stage2_config_channel_not_before_bring_up :
    (act_stage2_config
        (bound_world NM_DEVICE_STATE_CONFIG NM_DEVICE_STATE_DISCONNECTED false false false)).2.trace
      = [Effect.take_down 1 true, Effect.mesh_set_ssid [111, 108, 112, 99], Effect.bring_up 1,
          Effect.mesh_set_channel 6, Effect.notify_property 1 Property.PROP_ACTIVE_CHANNEL]
    ∧ precedes (Effect.mesh_set_channel 6) (Effect.bring_up 1)
        (act_stage2_config
          (bound_world NM_DEVICE_STATE_CONFIG NM_DEVICE_STATE_DISCONNECTED false false
            false)).2.trace = false
    ∧ precedes (Effect.bring_up 1) (Effect.mesh_set_channel 6)
        (act_stage2_config
          (bound_world NM_DEVICE_STATE_CONFIG NM_DEVICE_STATE_DISCONNECTED false false
            false)).2.trace = true := by
  decide

/-- C6, amended: in every run of `act_stage2_config` with an applied mesh
setting the outside calls are, in this order: take the interface down, set the
SSID, bring the interface up, and then, only if setting the SSID succeeded,
set the channel.  The SSID is applied after the take-down and before the
bring-up; the channel is applied after the bring-up, and not at all when
setting the SSID failed. -/
theorem act_stage2_config_order (w : World) (s : NMSettingOlpcMesh)
    (hs : w.applied_setting = some s) :
    (∃ rest, (act_stage2_config w).2.trace.drop w.trace.length
        = Effect.take_down w.self true :: Effect.mesh_set_ssid s.ssid :: Effect.bring_up w.self
            :: (if w.platform.mesh_set_ssid s.ssid then
                  Effect.mesh_set_channel
                      (if s.channel = 0 then w.platform.mesh_get_channel else s.channel) :: rest
                else [])
      ∧ ∀ e ∈ rest, e = Effect.notify_property w.self Property.PROP_ACTIVE_CHANNEL)
    ∧ precedes (Effect.take_down w.self true) (Effect.mesh_set_ssid s.ssid)
        ((act_stage2_config w).2.trace.drop w.trace.length) = true
    ∧ precedes (Effect.mesh_set_ssid s.ssid) (Effect.bring_up w.self)
        ((act_stage2_config w).2.trace.drop w.trace.length) = true
    ∧ (w.platform.mesh_set_ssid s.ssid = true →
        precedes (Effect.bring_up w.self)
          (Effect.mesh_set_channel
            (if s.channel = 0 then w.platform.mesh_get_channel else s.channel))
          ((act_stage2_config w).2.trace.drop w.trace.length) = true)
    ∧ (w.platform.mesh_set_ssid s.ssid = false →
        ∀ ch, Effect.mesh_set_channel ch
          ∉ (act_stage2_config w).2.trace.drop w.trace.length) := by
  have hn := act_stage2_config_new_calls w s hs
  refine ⟨?_, ?_, ?_, ?_, ?_⟩
  · refine ⟨_, hn, ?_⟩
    intro e he
    by_cases hcnd : (w.platform.mesh_set_channel
        (if s.channel = 0 then w.platform.mesh_get_channel else s.channel)
      && decide (w.platform.mesh_get_channel
        ≠ (if s.channel = 0 then w.platform.mesh_get_channel else s.channel))) = true
    · rw [if_pos hcnd] at he
      simpa using he
    · rw [if_neg hcnd] at he
      simp at he
  · rw [hn]
    simp [precedes, List.indexOf_cons]
  · rw [hn]
    simp [precedes, List.indexOf_cons]
  · intro h1
    rw [hn, h1]
    simp [precedes, List.indexOf_cons]
  · intro h1 ch
    rw [hn, h1]
    simp

/-- The run of C6 in which both platform calls succeed: the channel is set
after the bring-up; and the run of scenario C with the SSID call failing
instead: the channel is not set. -/
theorem act_stage2_config_order_witness :
    precedes (Effect.bring_up 1) (Effect.mesh_set_channel 6)
        ((act_stage2_config
          (bound_world NM_DEVICE_STATE_CONFIG NM_DEVICE_STATE_DISCONNECTED false false
            false)).2.trace.drop 0) = true
    ∧ Effect.mesh_set_channel 6
        ∉ (act_stage2_config
            { scenario_C_world with platform := sample_platform false true }).2.trace.drop 0 :=
  ⟨(act_stage2_config_order
      (bound_world NM_DEVICE_STATE_CONFIG NM_DEVICE_STATE_DISCONNECTED false false false)
      { ssid := [111, 108, 112, 99], channel := 6 } rfl).2.2.2.1 rfl,
   (act_stage2_config_order { scenario_C_world with platform := sample_platform false true }
      { ssid := [111, 108, 112, 99], channel := 6 } rfl).2.2.2.2 rfl 6⟩

/-! ## The state-change hook -/

/-- The hook `check_companion` leaves every device object and the address of
the mesh device as they are. -/
theorem check_companion_frame (w : World) (other : Nat) :
    (check_companion w other).2.objs = w.objs ∧ (check_companion w other).2.self = w.self := by
  unfold check_companion
  split
  · exact ⟨rfl, rfl⟩
  · simp only
    split
    · exact ⟨rfl, rfl⟩
    · exact ⟨rfl, rfl⟩

/-- The loop of `find_companion` keeps the address of the mesh device and the
state of every device. -/
theorem find_companion_loop_frame (l : List Nat) :
    ∀ w : World, (find_companion_loop w l).self = w.self
      ∧ ∀ p, ((find_companion_loop w l).objs p).state = (w.objs p).state := by
  induction l with
  | nil => intro w; exact ⟨rfl, fun _ => rfl⟩
  | cons candidate rest ih =>
    intro w
    obtain ⟨ho, hs⟩ := check_companion_frame w candidate
    simp only [find_companion_loop]
    split
    · refine ⟨?_, ?_⟩
      · simp [nm_device_remove_pending_action, nm_device_queue_recheck_available, hs]
      · intro p
        simp only [nm_device_remove_pending_action, nm_device_queue_recheck_available, emit_objs,
          set_obj_objs, ho]
        split
        · rename_i h; subst h; rfl
        · rfl
    · obtain ⟨h1, h2⟩ := ih (check_companion w candidate).2
      refine ⟨by rw [h1, hs], ?_⟩
      intro p
      rw [h2 p, ho]

/-- The function `find_companion` keeps the address of the mesh device and the
state of every device. -/
theorem find_companion_frame (w : World) :
    (find_companion w).self = w.self
      ∧ ∀ p, ((find_companion w).objs p).state = (w.objs p).state := by
  unfold find_companion
  split
  · exact ⟨rfl, fun _ => rfl⟩
  · obtain ⟨h1, h2⟩ := find_companion_loop_frame
      (nm_device_add_pending_action w w.self PendingAction.WAITING_FOR_COMPANION true).manager_devices
      (nm_device_add_pending_action w w.self PendingAction.WAITING_FOR_COMPANION true)
    have h3 : (nm_device_add_pending_action w w.self PendingAction.WAITING_FOR_COMPANION true).self
        = w.self := by
      unfold nm_device_add_pending_action
      simp only
      split <;> rfl
    have h4 : ∀ p, ((nm_device_add_pending_action w w.self PendingAction.WAITING_FOR_COMPANION
        true).objs p).state = (w.objs p).state := by
      intro p
      unfold nm_device_add_pending_action
      simp only
      split
      · rfl
      · simp only [set_obj_objs, emit_objs]
        split
        · rename_i h; subst h; rfl
        · rfl
    exact ⟨by rw [h1, h3], fun p => by rw [h2 p, h4 p]⟩

/-- After `nm_device_wifi_scanning_prohibited_track` the tag prohibits scanning
on the device exactly when TRUE was passed; the call is the last one recorded,
and the private fields, the address and every device state are kept. -/
theorem nm_device_wifi_scanning_prohibited_track_spec (w : World) (dev tag : Nat) (b : Bool) :
    (tag ∈ ((nm_device_wifi_scanning_prohibited_track w dev tag b).objs dev).scanning_prohibited_lst
        ↔ b = true)
    ∧ (nm_device_wifi_scanning_prohibited_track w dev tag b).trace
        = w.trace ++ [Effect.scanning_prohibited_track dev tag b]
    ∧ (nm_device_wifi_scanning_prohibited_track w dev tag b).priv = w.priv
    ∧ (nm_device_wifi_scanning_prohibited_track w dev tag b).self = w.self
    ∧ ∀ p, ((nm_device_wifi_scanning_prohibited_track w dev tag b).objs p).state
        = (w.objs p).state := by
  unfold nm_device_wifi_scanning_prohibited_track
  cases b with
  | true =>
    by_cases h : tag ∈ (w.objs dev).scanning_prohibited_lst
    · simp [h]
    · simp only [emit_objs, h, if_true, if_false, set_obj_objs_same, set_obj_trace, emit_trace,
        set_obj_priv, emit_priv, set_obj_self, emit_self, true_and, List.mem_cons, true_or]
      intro p
      rw [set_obj_objs]
      split
      · rename_i hp; subst hp; rfl
      · rfl
  | false =>
    simp only [emit_objs, Bool.false_eq_true, if_false, set_obj_objs_same, set_obj_trace,
      emit_trace, set_obj_priv, emit_priv, set_obj_self, emit_self, true_and, iff_false]
    refine ⟨by simp, ?_⟩
    intro p
    rw [set_obj_objs]
    split
    · rename_i hp; subst hp; rfl
    · rfl

/-- C8: on every transition of the mesh device to new_state, if a companion is
bound once the hook `state_changed` has done its discovery step, the hook's
last outside call tracks this device's scan prohibition on the companion with
TRUE exactly when new_state lies in PREPARE..IP_CONFIG inclusive and with
FALSE for every other new_state; afterwards the companion is still bound and
is prohibited from scanning by this device exactly when new_state, the state
the device is in when the parent class runs the hook, lies in
PREPARE..IP_CONFIG. -/
theorem state_changed_tracks_scan_prohibition (w : World) (new_state old_state : NMDeviceState)
    (reason : NMDeviceStateReason) (c : Nat)
    (hc : (if new_state = NM_DEVICE_STATE_UNAVAILABLE then find_companion w else w).priv.companion
      = some c) :
    (state_changed w new_state old_state reason).trace.getLast?
        = some (Effect.scanning_prohibited_track c w.self
            (decide (NM_DEVICE_STATE_PREPARE ≤ new_state
              ∧ new_state ≤ NM_DEVICE_STATE_IP_CONFIG)))
    ∧ (w.self ∈ ((state_changed w new_state old_state reason).objs c).scanning_prohibited_lst
        ↔ (NM_DEVICE_STATE_PREPARE ≤ new_state ∧ new_state ≤ NM_DEVICE_STATE_IP_CONFIG))
    ∧ (state_changed w new_state old_state reason).priv.companion = some c
    ∧ (nm_device_get_state w w.self = new_state →
        (w.self ∈ ((state_changed w new_state old_state reason).objs c).scanning_prohibited_lst
          ↔ (NM_DEVICE_STATE_PREPARE
                ≤ nm_device_get_state (state_changed w new_state old_state reason) w.self
              ∧ nm_device_get_state (state_changed w new_state old_state reason) w.self
                ≤ NM_DEVICE_STATE_IP_CONFIG))) := by
  have hself : (if new_state = NM_DEVICE_STATE_UNAVAILABLE then find_companion w else w).self
      = w.self := by
    split
    · exact (find_companion_frame w).1
    · rfl
  have hstate : ∀ p,
      ((if new_state = NM_DEVICE_STATE_UNAVAILABLE then find_companion w else w).objs p).state
        = (w.objs p).state := by
    intro p
    split
    · exact (find_companion_frame w).2 p
    · rfl
  have hb : (if new_state ≥ NM_DEVICE_STATE_PREPARE ∧ new_state ≤ NM_DEVICE_STATE_IP_CONFIG
        then true else false)
      = decide (NM_DEVICE_STATE_PREPARE ≤ new_state ∧ new_state ≤ NM_DEVICE_STATE_IP_CONFIG) := by
    by_cases h : NM_DEVICE_STATE_PREPARE ≤ new_state ∧ new_state ≤ NM_DEVICE_STATE_IP_CONFIG
    · simp [h]
    · simp only [ge_iff_le, h, if_false, decide_False]
  have heq : state_changed w new_state old_state reason
      = nm_device_wifi_scanning_prohibited_track
          (if new_state = NM_DEVICE_STATE_UNAVAILABLE then find_companion w else w) c w.self
          (decide (NM_DEVICE_STATE_PREPARE ≤ new_state
            ∧ new_state ≤ NM_DEVICE_STATE_IP_CONFIG)) := by
    unfold state_changed
    simp only [hc, hself, hb]
  obtain ⟨t1, t2, t3, t4, t5⟩ := nm_device_wifi_scanning_prohibited_track_spec
    (if new_state = NM_DEVICE_STATE_UNAVAILABLE then find_companion w else w) c w.self
    (decide (NM_DEVICE_STATE_PREPARE ≤ new_state ∧ new_state ≤ NM_DEVICE_STATE_IP_CONFIG))
  rw [heq]
  have hmem : w.self ∈ ((nm_device_wifi_scanning_prohibited_track
        (if new_state = NM_DEVICE_STATE_UNAVAILABLE then find_companion w else w) c w.self
        (decide (NM_DEVICE_STATE_PREPARE ≤ new_state
          ∧ new_state ≤ NM_DEVICE_STATE_IP_CONFIG))).objs c).scanning_prohibited_lst
      ↔ (NM_DEVICE_STATE_PREPARE ≤ new_state ∧ new_state ≤ NM_DEVICE_STATE_IP_CONFIG) := by
    rw [t1, decide_eq_true_iff]
  refine ⟨?_, hmem, ?_, ?_⟩
  · rw [t2]; simp
  · rw [t3]; exact hc
  · intro hst
    rw [hmem]
    unfold nm_device_get_state at hst ⊢
    rw [t5 w.self, hstate w.self, hst]

/-- A bound mesh device entering PREPARE prohibits its companion from scanning;
an unbound one entering UNAVAILABLE finds the companion and does not. -/
theorem state_changed_tracks_scan_prohibition_witness :
    (1 ∈ ((state_changed
          (bound_world NM_DEVICE_STATE_PREPARE NM_DEVICE_STATE_DISCONNECTED false false false)
          NM_DEVICE_STATE_PREPARE NM_DEVICE_STATE_DISCONNECTED
          NMDeviceStateReason.NONE).objs 2).scanning_prohibited_lst
      ↔ (NM_DEVICE_STATE_PREPARE ≤ NM_DEVICE_STATE_PREPARE
          ∧ NM_DEVICE_STATE_PREPARE ≤ NM_DEVICE_STATE_IP_CONFIG))
    ∧ ((state_changed (unbound_world NM_DEVICE_STATE_UNAVAILABLE) NM_DEVICE_STATE_UNAVAILABLE
          NM_DEVICE_STATE_UNMANAGED NMDeviceStateReason.NONE).trace.getLast?
      = some (Effect.scanning_prohibited_track 2 1 false))
    ∧ (1 ∈ ((state_changed
          (bound_world NM_DEVICE_STATE_CONFIG NM_DEVICE_STATE_DISCONNECTED false false false)
          NM_DEVICE_STATE_CONFIG NM_DEVICE_STATE_PREPARE
          NMDeviceStateReason.NONE).objs 2).scanning_prohibited_lst
      ↔ (NM_DEVICE_STATE_PREPARE
            ≤ nm_device_get_state
                (state_changed
                  (bound_world NM_DEVICE_STATE_CONFIG NM_DEVICE_STATE_DISCONNECTED false false
                    false)
                  NM_DEVICE_STATE_CONFIG NM_DEVICE_STATE_PREPARE NMDeviceStateReason.NONE) 1
          ∧ nm_device_get_state
                (state_changed
                  (bound_world NM_DEVICE_STATE_CONFIG NM_DEVICE_STATE_DISCONNECTED false false
                    false)
                  NM_DEVICE_STATE_CONFIG NM_DEVICE_STATE_PREPARE NMDeviceStateReason.NONE) 1
              ≤ NM_DEVICE_STATE_IP_CONFIG)) :=
  ⟨(state_changed_tracks_scan_prohibition
      (bound_world NM_DEVICE_STATE_PREPARE NM_DEVICE_STATE_DISCONNECTED false false false)
      NM_DEVICE_STATE_PREPARE NM_DEVICE_STATE_DISCONNECTED NMDeviceStateReason.NONE 2
      (by decide)).2.1,
   (state_changed_tracks_scan_prohibition (unbound_world NM_DEVICE_STATE_UNAVAILABLE)
      NM_DEVICE_STATE_UNAVAILABLE NM_DEVICE_STATE_UNMANAGED NMDeviceStateReason.NONE 2
      (by decide)).1,
   (state_changed_tracks_scan_prohibition
      (bound_world NM_DEVICE_STATE_CONFIG NM_DEVICE_STATE_DISCONNECTED false false false)
      NM_DEVICE_STATE_CONFIG NM_DEVICE_STATE_PREPARE NMDeviceStateReason.NONE 2
      (by decide)).2.2.2 rfl⟩

/-! ## Discovery and binding -/

/-- The verdict of `check_companion`: a Wi-Fi device with the hardware address
of the mesh device. -/
theorem check_companion_verdict (w : World) (other : Nat) :
    (check_companion w other).1
      = (NM_IS_DEVICE_WIFI w other
          && nm_utils_hwaddr_matches (nm_device_get_hw_address w w.self)
              (nm_device_get_hw_address w other)) := by
  unfold check_companion
  cases h1 : NM_IS_DEVICE_WIFI w other
  · simp
  · cases h2 : nm_utils_hwaddr_matches (nm_device_get_hw_address w w.self)
        (nm_device_get_hw_address w other) <;> simp [h2]

/-- A `check_companion` that rejects the device leaves the world as it is. -/
theorem check_companion_rejected (w : World) (other : Nat)
    (h : (check_companion w other).1 = false) : (check_companion w other).2 = w := by
  rw [check_companion_verdict] at h
  unfold check_companion
  cases h1 : NM_IS_DEVICE_WIFI w other
  · simp
  · cases h2 : nm_utils_hwaddr_matches (nm_device_get_hw_address w w.self)
        (nm_device_get_hw_address w other)
    · simp [h2]
    · simp [h1, h2] at h

/-- A `check_companion` that accepts the device stores it as companion,
connects the three handlers and records the binding calls; nothing else
changes. -/
theorem check_companion_accepted (w : World) (other : Nat)
    (h : (check_companion w other).1 = true) :
    (check_companion w other).2.priv.companion = some other
    ∧ (check_companion w other).2.priv.stage1_waiting = w.priv.stage1_waiting
    ∧ (check_companion w other).2.priv.manager = w.priv.manager
    ∧ (check_companion w other).2.objs = w.objs
    ∧ (check_companion w other).2.self = w.self
    ∧ (check_companion w other).2.manager_devices = w.manager_devices
    ∧ (check_companion w other).2.handlers
        = w.handlers ++ [(other, Signal.STATE_CHANGED, w.self),
            (other, Signal.NOTIFY_SCANNING, w.self), (other, Signal.AUTOCONNECT_ALLOWED, w.self)]
    ∧ (check_companion w other).2.trace = w.trace ++ binding_calls w.self other := by
  rw [check_companion_verdict] at h
  simp only [Bool.and_eq_true] at h
  unfold check_companion
  simp only [h.1, h.2, Bool.not_true, Bool.false_eq_true, if_false]
  simp [_notify, g_signal_connect, set_companion, g_object_ref, emit, binding_calls]

/-- What `nm_device_add_pending_action` leaves: the action is pending, the
call is recorded, and nothing but the pending actions of the device changes. -/
theorem nm_device_add_pending_action_spec (w : World) (dev : Nat) (a : PendingAction) (b : Bool) :
    a ∈ ((nm_device_add_pending_action w dev a b).objs dev).pending_actions
    ∧ (nm_device_add_pending_action w dev a b).priv = w.priv
    ∧ (nm_device_add_pending_action w dev a b).self = w.self
    ∧ (nm_device_add_pending_action w dev a b).manager_devices = w.manager_devices
    ∧ (nm_device_add_pending_action w dev a b).handlers = w.handlers
    ∧ (nm_device_add_pending_action w dev a b).trace
        = w.trace ++ [Effect.add_pending_action dev a b]
    ∧ ∀ p, ((nm_device_add_pending_action w dev a b).objs p).is_wifi = (w.objs p).is_wifi
        ∧ ((nm_device_add_pending_action w dev a b).objs p).hw_address = (w.objs p).hw_address
        ∧ ((nm_device_add_pending_action w dev a b).objs p).scanning_prohibited_lst
            = (w.objs p).scanning_prohibited_lst := by
  by_cases h : a ∈ (w.objs dev).pending_actions
  · have e : nm_device_add_pending_action w dev a b
        = emit w (Effect.add_pending_action dev a b) := by
      unfold nm_device_add_pending_action
      simp [h]
    rw [e]
    exact ⟨h, rfl, rfl, rfl, rfl, rfl, fun _ => ⟨rfl, rfl, rfl⟩⟩
  · have e : nm_device_add_pending_action w dev a b
        = set_obj (emit w (Effect.add_pending_action dev a b)) dev
            { w.objs dev with pending_actions := (w.objs dev).pending_actions ++ [a] } := by
      unfold nm_device_add_pending_action
      simp [h]
    rw [e]
    refine ⟨by simp, rfl, rfl, rfl, rfl, rfl, ?_⟩
    intro p
    rw [set_obj_objs]
    split
    · rename_i hp; subst hp; exact ⟨rfl, rfl, rfl⟩
    · exact ⟨rfl, rfl, rfl⟩

/-- What `nm_device_remove_pending_action` leaves: the action is not pending,
the call is recorded, and nothing but the pending actions of the device
changes. -/
theorem nm_device_remove_pending_action_spec (w : World) (dev : Nat) (a : PendingAction)
    (b : Bool) :
    a ∉ ((nm_device_remove_pending_action w dev a b).objs dev).pending_actions
    ∧ (nm_device_remove_pending_action w dev a b).priv = w.priv
    ∧ (nm_device_remove_pending_action w dev a b).self = w.self
    ∧ (nm_device_remove_pending_action w dev a b).manager_devices = w.manager_devices
    ∧ (nm_device_remove_pending_action w dev a b).handlers = w.handlers
    ∧ (nm_device_remove_pending_action w dev a b).trace
        = w.trace ++ [Effect.remove_pending_action dev a b]
    ∧ ∀ p, ((nm_device_remove_pending_action w dev a b).objs p).is_wifi = (w.objs p).is_wifi
        ∧ ((nm_device_remove_pending_action w dev a b).objs p).hw_address
            = (w.objs p).hw_address
        ∧ ((nm_device_remove_pending_action w dev a b).objs p).scanning_prohibited_lst
            = (w.objs p).scanning_prohibited_lst := by
  unfold nm_device_remove_pending_action
  simp only [emit_objs, set_obj_objs_same]
  refine ⟨by simp, rfl, rfl, rfl, rfl, rfl, ?_⟩
  intro p
  rw [set_obj_objs]
  split
  · rename_i hp; subst hp; exact ⟨rfl, rfl, rfl⟩
  · exact ⟨rfl, rfl, rfl⟩

/-- The verdict of `check_companion` reads the Wi-Fi type and the hardware
addresses only. -/
theorem check_companion_verdict_congr (w v : World) (hs : v.self = w.self)
    (ho : ∀ p, (v.objs p).is_wifi = (w.objs p).is_wifi
      ∧ (v.objs p).hw_address = (w.objs p).hw_address) (other : Nat) :
    (check_companion v other).1 = (check_companion w other).1 := by
  rw [check_companion_verdict, check_companion_verdict]
  simp only [NM_IS_DEVICE_WIFI, nm_device_get_hw_address, hs, (ho other).1, (ho other).2,
    (ho w.self).2]

/-- The loop of `find_companion` stops at the first device of the list that
`check_companion` accepts, queues the availability re-check and removes the
pending action; with no such device it leaves the world as it is. -/
theorem find_companion_loop_eq (l : List Nat) :
    ∀ w : World, find_companion_loop w l
      = match l.find? (fun d => (check_companion w d).1) with
        | some c =>
          nm_device_remove_pending_action
            (nm_device_queue_recheck_available (check_companion w c).2 w.self) w.self
            PendingAction.WAITING_FOR_COMPANION true
        | none => w := by
  induction l with
  | nil => intro w; rfl
  | cons candidate rest ih =>
    intro w
    cases h : (check_companion w candidate).1
    · simp only [find_companion_loop, h, Bool.false_eq_true, if_false, List.find?_cons]
      rw [check_companion_rejected w candidate h]
      exact ih w
    · simp only [find_companion_loop, h, if_true, List.find?_cons]

/-- The discovery pass of `find_companion` on an unbound device looks for the
first device of the manager that is a Wi-Fi device with the hardware address
of the mesh device. -/
theorem find_companion_unbound_eq (w : World) (hc : w.priv.companion = none) :
    find_companion w
      = match w.manager_devices.find? (fun d => NM_IS_DEVICE_WIFI w d
            && nm_utils_hwaddr_matches (nm_device_get_hw_address w w.self)
                (nm_device_get_hw_address w d)) with
        | some c =>
          nm_device_remove_pending_action
            (nm_device_queue_recheck_available
              (check_companion
                (nm_device_add_pending_action w w.self PendingAction.WAITING_FOR_COMPANION true)
                c).2 w.self) w.self PendingAction.WAITING_FOR_COMPANION true
        | none =>
          nm_device_add_pending_action w w.self PendingAction.WAITING_FOR_COMPANION true := by
  obtain ⟨_, _, a3, a4, _, _, a7⟩ :=
    nm_device_add_pending_action_spec w w.self PendingAction.WAITING_FOR_COMPANION true
  have hp : (fun d => (check_companion
        (nm_device_add_pending_action w w.self PendingAction.WAITING_FOR_COMPANION true) d).1)
      = (fun d => NM_IS_DEVICE_WIFI w d
            && nm_utils_hwaddr_matches (nm_device_get_hw_address w w.self)
                (nm_device_get_hw_address w d)) := by
    funext d
    rw [check_companion_verdict_congr w _ a3 (fun p => ⟨(a7 p).1, (a7 p).2.1⟩) d,
      check_companion_verdict]
  unfold find_companion
  simp only [hc, Option.isSome_none, Bool.false_eq_true, if_false]
  rw [find_companion_loop_eq, a4, hp, a3]

/-- The outcome of `find_companion` on an unbound device when some device of
the manager matches: the first such device is bound, the pending action is
not set, and the calls are the add, the binding, the queued re-check and the
removal. -/
theorem find_companion_found (w : World) (hc : w.priv.companion = none) (c : Nat)
    (hf : w.manager_devices.find? (fun d => NM_IS_DEVICE_WIFI w d
            && nm_utils_hwaddr_matches (nm_device_get_hw_address w w.self)
                (nm_device_get_hw_address w d)) = some c) :
    (find_companion w).priv.companion = some c
    ∧ (find_companion w).priv.stage1_waiting = w.priv.stage1_waiting
    ∧ (find_companion w).self = w.self
    ∧ PendingAction.WAITING_FOR_COMPANION ∉ ((find_companion w).objs w.self).pending_actions
    ∧ (find_companion w).handlers
        = w.handlers ++ [(c, Signal.STATE_CHANGED, w.self),
            (c, Signal.NOTIFY_SCANNING, w.self), (c, Signal.AUTOCONNECT_ALLOWED, w.self)]
    ∧ (find_companion w).trace
        = w.trace
          ++ Effect.add_pending_action w.self PendingAction.WAITING_FOR_COMPANION true
            :: (binding_calls w.self c
                ++ [Effect.queue_recheck_available w.self,
                    Effect.remove_pending_action w.self PendingAction.WAITING_FOR_COMPANION
                      true]) := by
  obtain ⟨_, a2, a3, _, a5, a6, a7⟩ :=
    nm_device_add_pending_action_spec w w.self PendingAction.WAITING_FOR_COMPANION true
  have hv : (check_companion
      (nm_device_add_pending_action w w.self PendingAction.WAITING_FOR_COMPANION true) c).1
        = true := by
    rw [check_companion_verdict_congr w _ a3 (fun p => ⟨(a7 p).1, (a7 p).2.1⟩) c,
      check_companion_verdict]
    have := List.find?_some hf
    simpa using this
  obtain ⟨b1, b2, _, _, b5, _, b7, b8⟩ := check_companion_accepted _ c hv
  rw [find_companion_unbound_eq w hc, hf]
  simp only
  obtain ⟨r1, r2, r3, _, r5, r6, _⟩ := nm_device_remove_pending_action_spec
    (nm_device_queue_recheck_available
      (check_companion
        (nm_device_add_pending_action w w.self PendingAction.WAITING_FOR_COMPANION true) c).2
      w.self) w.self PendingAction.WAITING_FOR_COMPANION true
  refine ⟨?_, ?_, ?_, r1, ?_, ?_⟩
  · rw [r2]; exact b1
  · rw [r2]; simp only [nm_device_queue_recheck_available, emit_priv]; rw [b2, a2]
  · rw [r3]; simp only [nm_device_queue_recheck_available, emit_self]; rw [b5, a3]
  · rw [r5]
    show (check_companion _ c).2.handlers = _
    rw [b7, a5, a3]
  · rw [r6]
    simp only [nm_device_queue_recheck_available, emit_trace]
    rw [b8, a6, a3]
    simp

/-- The outcome of `find_companion` on an unbound device when no device of the
manager matches: still unbound, the pending action is set, the only call is
the add. -/
theorem find_companion_not_found (w : World) (hc : w.priv.companion = none)
    (hf : w.manager_devices.find? (fun d => NM_IS_DEVICE_WIFI w d
            && nm_utils_hwaddr_matches (nm_device_get_hw_address w w.self)
                (nm_device_get_hw_address w d)) = none) :
    (find_companion w).priv = w.priv
    ∧ (find_companion w).self = w.self
    ∧ PendingAction.WAITING_FOR_COMPANION ∈ ((find_companion w).objs w.self).pending_actions
    ∧ (find_companion w).handlers = w.handlers
    ∧ (find_companion w).trace
        = w.trace
          ++ [Effect.add_pending_action w.self PendingAction.WAITING_FOR_COMPANION true] := by
  obtain ⟨a1, a2, a3, _, a5, a6, _⟩ :=
    nm_device_add_pending_action_spec w w.self PendingAction.WAITING_FOR_COMPANION true
  rw [find_companion_unbound_eq w hc, hf]
  exact ⟨a2, a3, a1, a5, a6⟩

/-- On a bound device `find_companion` returns at once. -/
theorem find_companion_bound (w : World) (c : Nat) (hc : w.priv.companion = some c) :
    find_companion w = w := by
  unfold find_companion
  simp [hc]

/-- On a bound device `device_added_cb` does nothing. -/
theorem device_added_cb_bound (w : World) (c other : Nat) (hc : w.priv.companion = some c) :
    device_added_cb w other = w := by
  unfold device_added_cb
  simp [hc]

/-- What `nm_device_wifi_scanning_prohibited_track` does not touch: handlers,
registry and, in every device, the pending actions, the Wi-Fi type and the
hardware address. -/
theorem nm_device_wifi_scanning_prohibited_track_frame (w : World) (dev tag : Nat) (b : Bool) :
    (nm_device_wifi_scanning_prohibited_track w dev tag b).handlers = w.handlers
    ∧ (nm_device_wifi_scanning_prohibited_track w dev tag b).manager_devices = w.manager_devices
    ∧ ∀ p, ((nm_device_wifi_scanning_prohibited_track w dev tag b).objs p).pending_actions
          = (w.objs p).pending_actions
        ∧ ((nm_device_wifi_scanning_prohibited_track w dev tag b).objs p).is_wifi
          = (w.objs p).is_wifi
        ∧ ((nm_device_wifi_scanning_prohibited_track w dev tag b).objs p).hw_address
          = (w.objs p).hw_address := by
  cases b with
  | true =>
    by_cases h : tag ∈ (w.objs dev).scanning_prohibited_lst
    · have e : nm_device_wifi_scanning_prohibited_track w dev tag true
          = emit w (Effect.scanning_prohibited_track dev tag true) := by
        unfold nm_device_wifi_scanning_prohibited_track
        simp [h]
      rw [e]
      exact ⟨rfl, rfl, fun _ => ⟨rfl, rfl, rfl⟩⟩
    · have e : nm_device_wifi_scanning_prohibited_track w dev tag true
          = set_obj (emit w (Effect.scanning_prohibited_track dev tag true)) dev
              { w.objs dev with
                scanning_prohibited_lst := tag :: (w.objs dev).scanning_prohibited_lst } := by
        unfold nm_device_wifi_scanning_prohibited_track
        simp [h]
      rw [e]
      refine ⟨rfl, rfl, ?_⟩
      intro p
      rw [set_obj_objs]
      split
      · rename_i hp; subst hp; exact ⟨rfl, rfl, rfl⟩
      · exact ⟨rfl, rfl, rfl⟩
  | false =>
    have e : nm_device_wifi_scanning_prohibited_track w dev tag false
        = set_obj (emit w (Effect.scanning_prohibited_track dev tag false)) dev
            { w.objs dev with
              scanning_prohibited_lst :=
                (w.objs dev).scanning_prohibited_lst.filter (fun t => t ≠ tag) } := by
      unfold nm_device_wifi_scanning_prohibited_track
      simp
    rw [e]
    refine ⟨rfl, rfl, ?_⟩
    intro p
    rw [set_obj_objs]
    split
    · rename_i hp; subst hp; exact ⟨rfl, rfl, rfl⟩
    · exact ⟨rfl, rfl, rfl⟩

/-- C11: on a mesh device that already has a companion bound, the registry
event `device_added_cb` and the discovery pass `find_companion` return the
world they were given, whatever the other device is, a Wi-Fi device with the
same hardware address included: the companion reference is the original, no
handler is connected, the pending actions are untouched and no call is made.
The discovery pass inside the hook `state_changed` likewise keeps the
companion, the handlers and the pending actions. -/
theorem binding_is_exclusive (w : World) (c other : Nat) (hc : w.priv.companion = some c) :
    device_added_cb w other = w
    ∧ find_companion w = w
    ∧ (device_added_cb w other).priv.companion = some c
    ∧ (find_companion w).priv.companion = some c
    ∧ (device_added_cb w other).handlers = w.handlers
    ∧ (find_companion w).handlers = w.handlers
    ∧ (device_added_cb w other).objs = w.objs
    ∧ (find_companion w).objs = w.objs
    ∧ (device_added_cb w other).trace = w.trace
    ∧ (find_companion w).trace = w.trace
    ∧ ∀ (new_state old_state : NMDeviceState) (reason : NMDeviceStateReason),
        (state_changed w new_state old_state reason).priv.companion = some c
        ∧ (state_changed w new_state old_state reason).handlers = w.handlers
        ∧ ((state_changed w new_state old_state reason).objs w.self).pending_actions
            = (w.objs w.self).pending_actions := by
  have h1 := device_added_cb_bound w c other hc
  have h2 := find_companion_bound w c hc
  rw [h1, h2]
  refine ⟨rfl, rfl, hc, hc, rfl, rfl, rfl, rfl, rfl, rfl, ?_⟩
  intro new_state old_state reason
  have hw1 : (if new_state = NM_DEVICE_STATE_UNAVAILABLE then find_companion w else w) = w := by
    split
    · exact h2
    · rfl
  unfold state_changed
  simp only [hw1, hc]
  obtain ⟨_, _, t3, _, _⟩ := nm_device_wifi_scanning_prohibited_track_spec w c w.self
    (if new_state ≥ NM_DEVICE_STATE_PREPARE ∧ new_state ≤ NM_DEVICE_STATE_IP_CONFIG then true
      else false)
  obtain ⟨f1, _, f3⟩ := nm_device_wifi_scanning_prohibited_track_frame w c w.self
    (if new_state ≥ NM_DEVICE_STATE_PREPARE ∧ new_state ≤ NM_DEVICE_STATE_IP_CONFIG then true
      else false)
  exact ⟨by rw [t3]; exact hc, f1, (f3 w.self).1⟩

/-- A second Wi-Fi device with the hardware address of the mesh device enters
the registry while a companion is bound: `check_companion` would accept it,
and `device_added_cb` leaves the world as it is. -/
theorem binding_is_exclusive_witness :
    (check_companion two_radios_world 3).1 = true
    ∧ device_added_cb two_radios_world 3 = two_radios_world
    ∧ (find_companion two_radios_world).priv.companion = some 2 :=
  ⟨by decide, (binding_is_exclusive two_radios_world 2 3 rfl).1,
    (binding_is_exclusive two_radios_world 2 3 rfl).2.2.2.1⟩

/-- C13: `find_companion` on a mesh device with no companion binds the first
device of the manager's list, in enumeration order, that is a Wi-Fi device
whose hardware address matches the mesh device's, whatever follows it in the
list; if there is one, the pending action "waiting for companion" is not set
afterwards and an availability re-check has been queued; if there is none,
the device keeps no companion, the pending action is set and `is_available`
answers FALSE. -/
theorem find_companion_binds_first_match (w : World) (hc : w.priv.companion = none) :
    (find_companion w).priv.companion
        = w.manager_devices.find? (fun d => NM_IS_DEVICE_WIFI w d
            && nm_utils_hwaddr_matches (nm_device_get_hw_address w w.self)
                (nm_device_get_hw_address w d))
    ∧ (∀ (pre post : List Nat) (c : Nat), w.manager_devices = pre ++ c :: post →
        (∀ d ∈ pre, (NM_IS_DEVICE_WIFI w d
            && nm_utils_hwaddr_matches (nm_device_get_hw_address w w.self)
                (nm_device_get_hw_address w d)) = false) →
        (NM_IS_DEVICE_WIFI w c
            && nm_utils_hwaddr_matches (nm_device_get_hw_address w w.self)
                (nm_device_get_hw_address w c)) = true →
        (find_companion w).priv.companion = some c)
    ∧ (∀ c, (find_companion w).priv.companion = some c →
        waiting_for_companion (find_companion w) = false
        ∧ is_available (find_companion w) = true
        ∧ Effect.queue_recheck_available w.self
            ∈ (find_companion w).trace.drop w.trace.length
        ∧ (find_companion w).trace.drop w.trace.length
            = Effect.add_pending_action w.self PendingAction.WAITING_FOR_COMPANION true
              :: (binding_calls w.self c
                  ++ [Effect.queue_recheck_available w.self,
                      Effect.remove_pending_action w.self PendingAction.WAITING_FOR_COMPANION
                        true]))
    ∧ ((find_companion w).priv.companion = none →
        waiting_for_companion (find_companion w) = true
        ∧ is_available (find_companion w) = false
        ∧ (find_companion w).trace.drop w.trace.length
            = [Effect.add_pending_action w.self PendingAction.WAITING_FOR_COMPANION true]) := by
  have hfirst : (find_companion w).priv.companion
        = w.manager_devices.find? (fun d => NM_IS_DEVICE_WIFI w d
            && nm_utils_hwaddr_matches (nm_device_get_hw_address w w.self)
                (nm_device_get_hw_address w d)) := by
    cases hf : w.manager_devices.find? (fun d => NM_IS_DEVICE_WIFI w d
            && nm_utils_hwaddr_matches (nm_device_get_hw_address w w.self)
                (nm_device_get_hw_address w d)) with
    | none => rw [(find_companion_not_found w hc hf).1]; exact hc
    | some c => exact (find_companion_found w hc c hf).1
  refine ⟨hfirst, ?_, ?_, ?_⟩
  · intro pre post c hl hpre hcm
    rw [hfirst, hl, List.find?_append]
    have hnone : List.find? (fun d => NM_IS_DEVICE_WIFI w d
            && nm_utils_hwaddr_matches (nm_device_get_hw_address w w.self)
                (nm_device_get_hw_address w d)) pre = none := by
      rw [List.find?_eq_none]
      intro d hd
      simp only [hpre d hd, Bool.false_eq_true, not_false_eq_true]
    rw [hnone, List.find?_cons, hcm]
    rfl
  · intro c hcomp
    rw [hfirst] at hcomp
    obtain ⟨g1, _, g3, g4, _, g6⟩ := find_companion_found w hc c hcomp
    have hdrop : (find_companion w).trace.drop w.trace.length
        = Effect.add_pending_action w.self PendingAction.WAITING_FOR_COMPANION true
          :: (binding_calls w.self c
              ++ [Effect.queue_recheck_available w.self,
                  Effect.remove_pending_action w.self PendingAction.WAITING_FOR_COMPANION
                    true]) := by
      rw [g6, List.drop_left]
    refine ⟨?_, ?_, ?_, hdrop⟩
    · unfold waiting_for_companion
      rw [g3]
      simp only [g4, decide_False]
    · unfold is_available
      rw [g1]
    · rw [hdrop]
      simp
  · intro hcomp
    rw [hfirst] at hcomp
    obtain ⟨g1, g2, g3, _, g5⟩ := find_companion_not_found w hc hcomp
    refine ⟨?_, ?_, ?_⟩
    · unfold waiting_for_companion
      rw [g2]
      simp only [g3, decide_True]
    · unfold is_available
      rw [g1, hc]
    · rw [g5, List.drop_left]

/-- Scenario A of the spec for C13: with the registry [D, a Wi-Fi device of
another address, two matching Wi-Fi devices] the first matching one is bound
and nothing is pending; with no matching device D stays unbound, waiting and
unavailable. -/
theorem find_companion_binds_first_match_witness :
    (find_companion (fresh_world [1, 4, 3, 2])).priv.companion = some 3
    ∧ waiting_for_companion (find_companion (fresh_world [1, 4, 3, 2])) = false
    ∧ waiting_for_companion (find_companion (fresh_world [1, 4])) = true
    ∧ is_available (find_companion (fresh_world [1, 4])) = false :=
  ⟨(find_companion_binds_first_match (fresh_world [1, 4, 3, 2]) rfl).2.1 [1, 4] [2] 3 rfl
      (by decide) (by decide),
   ((find_companion_binds_first_match (fresh_world [1, 4, 3, 2]) rfl).2.2.1 3 (by decide)).1,
   ((find_companion_binds_first_match (fresh_world [1, 4]) rfl).2.2.2 (by decide)).1,
   ((find_companion_binds_first_match (fresh_world [1, 4]) rfl).2.2.2 (by decide)).2.1⟩

/-! ## Unbinding -/

/-- The world after `companion_cleanup` on a bound device. -/
theorem companion_cleanup_bound (w : World) (c : Nat) (hc : w.priv.companion = some c) :
    companion_cleanup w
      = _notify
          (g_object_unref
            (set_companion
              (g_signal_handlers_disconnect_by_data
                (nm_device_wifi_scanning_prohibited_track w c w.self false) c w.self) none) c)
          Property.PROP_COMPANION := by
  unfold companion_cleanup
  simp only [hc]

/-- The world after `companion_cleanup` on an unbound device. -/
theorem companion_cleanup_unbound (w : World) (hc : w.priv.companion = none) :
    companion_cleanup w = _notify w Property.PROP_COMPANION := by
  unfold companion_cleanup
  simp only [hc]

/-- C14: when the registry reports the removal of the bound companion C,
`device_removed_cb` leaves the mesh device with a null companion reference,
with no handler of its own on C for any signal (the handlers on other
instances stay), and with its scan prohibition on C released.  The calls are,
in this order: release the prohibition, disconnect the handlers, release the
reference, notify the property; so the handlers are withdrawn before the
reference is dropped, and afterwards a signal emitted by C, of any of the
three kinds, reaches no handler of the mesh device and leaves the world as it
is. -/
theorem device_removed_cb_unbinds (w : World) (c : Nat) (hc : w.priv.companion = some c) :
    (device_removed_cb w c).priv.companion = none
    ∧ (∀ sig, (c, sig, w.self) ∉ (device_removed_cb w c).handlers)
    ∧ (device_removed_cb w c).handlers
        = w.handlers.filter (fun h => !(h.1 = c && h.2.2 = w.self))
    ∧ w.self ∉ ((device_removed_cb w c).objs c).scanning_prohibited_lst
    ∧ (device_removed_cb w c).trace.drop w.trace.length
        = [Effect.scanning_prohibited_track c w.self false,
           Effect.signal_handlers_disconnect_by_data c w.self,
           Effect.object_unref c,
           Effect.notify_property w.self Property.PROP_COMPANION]
    ∧ precedes (Effect.signal_handlers_disconnect_by_data c w.self) (Effect.object_unref c)
        ((device_removed_cb w c).trace.drop w.trace.length) = true
    ∧ (∀ (state old_state : NMDeviceState) (reason : NMDeviceStateReason),
        deliver_state_changed (device_removed_cb w c) c state old_state reason
          = device_removed_cb w c)
    ∧ deliver_notify_scanning (device_removed_cb w c) c = device_removed_cb w c
    ∧ deliver_autoconnect_allowed (device_removed_cb w c) c = none := by
  have he : device_removed_cb w c = companion_cleanup w := by
    unfold device_removed_cb
    simp [hc]
  obtain ⟨t1, t2, _, t4, _⟩ :=
    nm_device_wifi_scanning_prohibited_track_spec w c w.self false
  obtain ⟨f1, _, _⟩ := nm_device_wifi_scanning_prohibited_track_frame w c w.self false
  have hself : (device_removed_cb w c).self = w.self := by
    rw [he, companion_cleanup_bound w c hc]
    simp only [_notify, g_object_unref, emit_self]
    exact t4
  have hh : (device_removed_cb w c).handlers
      = w.handlers.filter (fun h => !(h.1 = c && h.2.2 = w.self)) := by
    rw [he, companion_cleanup_bound w c hc]
    show ((nm_device_wifi_scanning_prohibited_track w c w.self false).handlers).filter _ = _
    rw [f1]
  have hnot : ∀ sig, (c, sig, w.self) ∉ (device_removed_cb w c).handlers := by
    intro sig
    rw [hh]
    simp
  have htrace : (device_removed_cb w c).trace.drop w.trace.length
      = [Effect.scanning_prohibited_track c w.self false,
         Effect.signal_handlers_disconnect_by_data c w.self,
         Effect.object_unref c,
         Effect.notify_property w.self Property.PROP_COMPANION] := by
    rw [he, companion_cleanup_bound w c hc]
    simp only [_notify, g_object_unref, emit_trace, emit_self]
    show ((nm_device_wifi_scanning_prohibited_track w c w.self false).trace ++ _ ++ _ ++ _).drop _
      = _
    rw [t2]
    have hs2 : (set_companion
        (g_signal_handlers_disconnect_by_data
          (nm_device_wifi_scanning_prohibited_track w c w.self false) c w.self) none).self
          = w.self := t4
    rw [hs2]
    simp
  refine ⟨?_, hnot, hh, ?_, htrace, ?_, ?_, ?_, ?_⟩
  · rw [he, companion_cleanup_bound w c hc]
    rfl
  · rw [he, companion_cleanup_bound w c hc]
    show w.self ∉ ((nm_device_wifi_scanning_prohibited_track w c w.self false).objs
      c).scanning_prohibited_lst
    intro hm
    have := t1.mp hm
    exact Bool.false_ne_true this
  · rw [htrace]
    simp [precedes, List.indexOf_cons]
  · intro state old_state reason
    unfold deliver_state_changed
    rw [hself, if_neg (hnot Signal.STATE_CHANGED)]
  · unfold deliver_notify_scanning
    rw [hself, if_neg (hnot Signal.NOTIFY_SCANNING)]
  · unfold deliver_autoconnect_allowed
    rw [hself, if_neg (hnot Signal.AUTOCONNECT_ALLOWED)]

/-- Scenario E of the spec for C14: C is removed from the registry while bound
to an activated D; D keeps only its two handlers on the manager. -/
theorem device_removed_cb_unbinds_witness :
    (device_removed_cb
        (bound_world NM_DEVICE_STATE_ACTIVATED NM_DEVICE_STATE_DISCONNECTED false false false)
        2).handlers
      = [(0, Signal.DEVICE_ADDED, 1), (0, Signal.DEVICE_REMOVED, 1)]
    ∧ (device_removed_cb
        (bound_world NM_DEVICE_STATE_ACTIVATED NM_DEVICE_STATE_DISCONNECTED false false false)
        2).priv.companion = none :=
  ⟨(device_removed_cb_unbinds
      (bound_world NM_DEVICE_STATE_ACTIVATED NM_DEVICE_STATE_DISCONNECTED false false false) 2
      rfl).2.2.1,
   (device_removed_cb_unbinds
      (bound_world NM_DEVICE_STATE_ACTIVATED NM_DEVICE_STATE_DISCONNECTED false false false) 2
      rfl).1⟩

/-! ## Teardown during a postponement -/

/-- The discovery pass `find_companion` keeps the flag `stage1_waiting` and the
address of the mesh device. -/
theorem find_companion_stage1_waiting (w : World) :
    (find_companion w).priv.stage1_waiting = w.priv.stage1_waiting
    ∧ (find_companion w).self = w.self := by
  cases hc : w.priv.companion with
  | some c => rw [find_companion_bound w c hc]; exact ⟨rfl, rfl⟩
  | none =>
    cases hf : w.manager_devices.find? (fun d => NM_IS_DEVICE_WIFI w d
            && nm_utils_hwaddr_matches (nm_device_get_hw_address w w.self)
                (nm_device_get_hw_address w d)) with
    | none =>
      obtain ⟨g1, g2, _⟩ := find_companion_not_found w hc hf
      exact ⟨by rw [g1], g2⟩
    | some c =>
      obtain ⟨_, g2, g3, _⟩ := find_companion_found w hc c hf
      exact ⟨g2, g3⟩

/-- The hook `state_changed` keeps the flag `stage1_waiting` and the address of
the mesh device, whatever the transition. -/
theorem state_changed_stage1_waiting (w : World) (new_state old_state : NMDeviceState)
    (reason : NMDeviceStateReason) :
    (state_changed w new_state old_state reason).priv.stage1_waiting = w.priv.stage1_waiting
    ∧ (state_changed w new_state old_state reason).self = w.self := by
  have h1 : (if new_state = NM_DEVICE_STATE_UNAVAILABLE then find_companion w else w).priv.stage1_waiting
      = w.priv.stage1_waiting
      ∧ (if new_state = NM_DEVICE_STATE_UNAVAILABLE then find_companion w else w).self
        = w.self := by
    split
    · exact find_companion_stage1_waiting w
    · exact ⟨rfl, rfl⟩
  unfold state_changed
  simp only
  split
  · rename_i c hc
    obtain ⟨_, _, t3, t4, _⟩ := nm_device_wifi_scanning_prohibited_track_spec
      (if new_state = NM_DEVICE_STATE_UNAVAILABLE then find_companion w else w) c
      (if new_state = NM_DEVICE_STATE_UNAVAILABLE then find_companion w else w).self
      (if new_state ≥ NM_DEVICE_STATE_PREPARE ∧ new_state ≤ NM_DEVICE_STATE_IP_CONFIG then true
        else false)
    exact ⟨by rw [t3]; exact h1.1, by rw [t4]; exact h1.2⟩
  · exact h1

/-- C15, the claim as stated fails: the Prepare stage of D returned POSTPONE,
then D was put in DISCONNECTED and its hook `state_changed` ran; the flag
`stage1_waiting` is still set, and the companion's next notification with
scanning false schedules stage 1 of the disconnected device. -/
theorem state_changed_leaves_stage1_waiting_set :
    (act_stage1_prepare
        (bound_world NM_DEVICE_STATE_PREPARE NM_DEVICE_STATE_DISCONNECTED false true false)).1
      = NMActStageReturn.POSTPONE
    ∧ nm_device_get_state torn_down_world 1 = NM_DEVICE_STATE_DISCONNECTED
    ∧ torn_down_world.priv.stage1_waiting = true
    ∧ (scanning_notification torn_down_world 2 false).trace
        = torn_down_world.trace ++ [Effect.activate_schedule_stage1_device_prepare 1 false] := by
  decide

/-- C15, amended: for every mesh device whose Prepare stage returned POSTPONE,
the hook `state_changed` run for the transition to DISCONNECTED leaves the
flag `stage1_waiting` set (the hook leaves the flag as it finds it, for every
transition and every world); so a companion notification with scanning false
delivered after the teardown still schedules stage 1, exactly once: for every
sequence of notifications after the hook, the trace gains the scheduling call
once if some notification reports scanning false and not at all otherwise,
and the flag stays set exactly while every notification so far reported
scanning true. -/
theorem state_changed_keeps_stage1_waiting (w : World)
    (hp : (act_stage1_prepare w).1 = NMActStageReturn.POSTPONE) (c : Nat)
    (old_state : NMDeviceState) (reason : NMDeviceStateReason) :
    (state_changed (act_stage1_prepare w).2 NM_DEVICE_STATE_DISCONNECTED old_state
        reason).priv.stage1_waiting = true
    ∧ (∀ bs : List Bool,
        (scanning_notifications
            (state_changed (act_stage1_prepare w).2 NM_DEVICE_STATE_DISCONNECTED old_state reason)
            c bs).trace
          = (state_changed (act_stage1_prepare w).2 NM_DEVICE_STATE_DISCONNECTED old_state
              reason).trace
              ++ (if bs.all id then []
                  else [Effect.activate_schedule_stage1_device_prepare
                          (act_stage1_prepare w).2.self false])
        ∧ (scanning_notifications
            (state_changed (act_stage1_prepare w).2 NM_DEVICE_STATE_DISCONNECTED old_state reason)
            c bs).priv.stage1_waiting = bs.all id)
    ∧ (∀ (v : World) (new_state old_state : NMDeviceState) (reason : NMDeviceStateReason),
        (state_changed v new_state old_state reason).priv.stage1_waiting
          = v.priv.stage1_waiting) := by
  obtain ⟨h1, h2, _, _⟩ := act_stage1_prepare_cases w
  have hflag : (act_stage1_prepare w).2.priv.stage1_waiting = true := by
    rw [h2]
    rw [h1] at hp
    cases hs : nm_device_wifi_get_scanning w w.priv.companion
    · simp [hs] at hp
    · rfl
  obtain ⟨k1, k2⟩ := state_changed_stage1_waiting (act_stage1_prepare w).2
    NM_DEVICE_STATE_DISCONNECTED old_state reason
  refine ⟨by rw [k1, hflag], ?_, fun v n o r => (state_changed_stage1_waiting v n o r).1⟩
  intro bs
  obtain ⟨t1, t2, _, _⟩ := scanning_notifications_spec c bs
    (state_changed (act_stage1_prepare w).2 NM_DEVICE_STATE_DISCONNECTED old_state reason)
  rw [t1, t2, k1, k2, hflag]
  cases bs.all id <;> simp

/-- The teardown of C15 on the device of `bound_world`: the flag survives the
hook, and one notification with scanning false after it schedules stage 1. -/
theorem state_changed_keeps_stage1_waiting_witness :
    ((state_changed
        (act_stage1_prepare
          (bound_world NM_DEVICE_STATE_PREPARE NM_DEVICE_STATE_DISCONNECTED false true false)).2
        NM_DEVICE_STATE_DISCONNECTED NM_DEVICE_STATE_PREPARE
        NMDeviceStateReason.USER_REQUESTED).priv.stage1_waiting = true)
    ∧ ((scanning_notifications
          (state_changed
            (act_stage1_prepare
              (bound_world NM_DEVICE_STATE_PREPARE NM_DEVICE_STATE_DISCONNECTED false true
                false)).2
            NM_DEVICE_STATE_DISCONNECTED NM_DEVICE_STATE_PREPARE
            NMDeviceStateReason.USER_REQUESTED) 2 [false]).trace
        = (state_changed
            (act_stage1_prepare
              (bound_world NM_DEVICE_STATE_PREPARE NM_DEVICE_STATE_DISCONNECTED false true
                false)).2
            NM_DEVICE_STATE_DISCONNECTED NM_DEVICE_STATE_PREPARE
            NMDeviceStateReason.USER_REQUESTED).trace
          ++ [Effect.activate_schedule_stage1_device_prepare 1 false]) :=
  ⟨(state_changed_keeps_stage1_waiting
    (bound_world NM_DEVICE_STATE_PREPARE NM_DEVICE_STATE_DISCONNECTED false true false)
    (by decide) 2 NM_DEVICE_STATE_PREPARE NMDeviceStateReason.USER_REQUESTED).1,
   ((state_changed_keeps_stage1_waiting
    (bound_world NM_DEVICE_STATE_PREPARE NM_DEVICE_STATE_DISCONNECTED false true false)
    (by decide) 2 NM_DEVICE_STATE_PREPARE NMDeviceStateReason.USER_REQUESTED).2.1 [false]).1⟩

/-! ## The handlers, one event at a time -/

/-- The handler `device_added_cb` on an unbound device, when `check_companion`
accepts the new device: it is bound, the re-check is queued and the pending
action is removed without asserting that it is pending. -/
theorem device_added_cb_accepted (w : World) (other : Nat) (hc : w.priv.companion = none)
    (hv : (check_companion w other).1 = true) :
    (device_added_cb w other).priv.companion = some other
    ∧ (device_added_cb w other).self = w.self
    ∧ PendingAction.WAITING_FOR_COMPANION
        ∉ ((device_added_cb w other).objs w.self).pending_actions
    ∧ (device_added_cb w other).trace
        = w.trace
          ++ (binding_calls w.self other
              ++ [Effect.queue_recheck_available w.self,
                  Effect.remove_pending_action w.self PendingAction.WAITING_FOR_COMPANION
                    false]) := by
  obtain ⟨b1, _, _, _, b5, _, _, b8⟩ := check_companion_accepted w other hv
  have he : device_added_cb w other
      = nm_device_remove_pending_action
          (nm_device_queue_recheck_available (check_companion w other).2 w.self) w.self
          PendingAction.WAITING_FOR_COMPANION false := by
    unfold device_added_cb
    simp [hc, hv]
  obtain ⟨r1, r2, r3, _, _, r6, _⟩ := nm_device_remove_pending_action_spec
    (nm_device_queue_recheck_available (check_companion w other).2 w.self) w.self
    PendingAction.WAITING_FOR_COMPANION false
  rw [he]
  refine ⟨?_, ?_, r1, ?_⟩
  · rw [r2]; exact b1
  · rw [r3]; exact b5
  · rw [r6]
    simp only [nm_device_queue_recheck_available, emit_trace]
    rw [b8]
    simp

/-- The handler `device_added_cb` on an unbound device, when `check_companion`
rejects the new device, does nothing. -/
theorem device_added_cb_rejected (w : World) (other : Nat) (hc : w.priv.companion = none)
    (hv : (check_companion w other).1 = false) : device_added_cb w other = w := by
  unfold device_added_cb
  simp only [hc, Option.isSome_none, Bool.false_eq_true, if_false, hv]
  exact check_companion_rejected w other hv

/-- After `companion_cleanup` no companion is bound, the address and the
pending actions of the mesh device are kept, and the calls are those of the
unbinding, if a companion was bound, and the property notification. -/
theorem companion_cleanup_spec (w : World) :
    (companion_cleanup w).priv.companion = none
    ∧ (companion_cleanup w).priv.manager = w.priv.manager
    ∧ (companion_cleanup w).self = w.self
    ∧ (∀ p, ((companion_cleanup w).objs p).pending_actions = (w.objs p).pending_actions)
    ∧ (companion_cleanup w).trace
        = w.trace
          ++ (match w.priv.companion with
              | some c => [Effect.scanning_prohibited_track c w.self false,
                           Effect.signal_handlers_disconnect_by_data c w.self,
                           Effect.object_unref c]
              | none => [])
          ++ [Effect.notify_property w.self Property.PROP_COMPANION] := by
  cases hc : w.priv.companion with
  | none =>
    rw [companion_cleanup_unbound w hc]
    exact ⟨hc, rfl, rfl, fun _ => rfl, by simp [_notify]⟩
  | some c =>
    obtain ⟨_, t2, t3, t4, _⟩ :=
      nm_device_wifi_scanning_prohibited_track_spec w c w.self false
    obtain ⟨_, _, f3⟩ := nm_device_wifi_scanning_prohibited_track_frame w c w.self false
    rw [companion_cleanup_bound w c hc]
    refine ⟨rfl, ?_, t4, fun p => (f3 p).1, ?_⟩
    · show (nm_device_wifi_scanning_prohibited_track w c w.self false).priv.manager = _
      rw [t3]
    · have hs2 : (g_object_unref (set_companion
          (g_signal_handlers_disconnect_by_data
            (nm_device_wifi_scanning_prohibited_track w c w.self false) c w.self) none) c).self
            = w.self := t4
      simp only [_notify, hs2, emit_trace]
      show (nm_device_wifi_scanning_prohibited_track w c w.self false).trace ++ _ ++ _ ++ _ = _
      rw [t2]
      simp

/-- The manager part of `dispose` keeps the companion field, the address and
every device object, and records no call on a pending action. -/
theorem dispose_spec (w : World) :
    (dispose w).priv.companion = none
    ∧ (dispose w).self = w.self
    ∧ (∀ p, ((dispose w).objs p).pending_actions = (w.objs p).pending_actions)
    ∧ (dispose w).trace
        = (companion_cleanup w).trace
          ++ (match w.priv.manager with
              | some m => [Effect.signal_handlers_disconnect_by_func m Signal.DEVICE_ADDED w.self,
                           Effect.signal_handlers_disconnect_by_func m Signal.DEVICE_REMOVED
                             w.self,
                           Effect.object_unref m]
              | none => []) := by
  obtain ⟨c1, c2, c3, c4, _⟩ := companion_cleanup_spec w
  unfold dispose
  generalize companion_cleanup w = w1 at *
  rw [← c2, ← c3]
  cases hm : w1.priv.manager with
  | none =>
    simpa [hm, c1] using c4
  | some m =>
    simp only [hm]
    refine ⟨c1, rfl, c4, ?_⟩
    simp [g_object_unref, g_signal_handlers_disconnect_by_func, emit]

/-- The hook `state_changed` after its discovery step: only the scan
prohibition is tracked, on the companion bound at that point. -/
theorem state_changed_spec (w : World) (new_state old_state : NMDeviceState)
    (reason : NMDeviceStateReason) :
    (state_changed w new_state old_state reason).priv
        = (if new_state = NM_DEVICE_STATE_UNAVAILABLE then find_companion w else w).priv
    ∧ (∀ p, ((state_changed w new_state old_state reason).objs p).pending_actions
        = ((if new_state = NM_DEVICE_STATE_UNAVAILABLE then find_companion w else w).objs
            p).pending_actions)
    ∧ (state_changed w new_state old_state reason).trace
        = (if new_state = NM_DEVICE_STATE_UNAVAILABLE then find_companion w else w).trace
          ++ (match (if new_state = NM_DEVICE_STATE_UNAVAILABLE then find_companion w
                      else w).priv.companion with
              | some c =>
                [Effect.scanning_prohibited_track c w.self
                  (decide (NM_DEVICE_STATE_PREPARE ≤ new_state
                    ∧ new_state ≤ NM_DEVICE_STATE_IP_CONFIG))]
              | none => []) := by
  have hself : (if new_state = NM_DEVICE_STATE_UNAVAILABLE then find_companion w else w).self
      = w.self := by
    split
    · exact (find_companion_stage1_waiting w).2
    · rfl
  have hb : (if new_state ≥ NM_DEVICE_STATE_PREPARE ∧ new_state ≤ NM_DEVICE_STATE_IP_CONFIG
        then true else false)
      = decide (NM_DEVICE_STATE_PREPARE ≤ new_state ∧ new_state ≤ NM_DEVICE_STATE_IP_CONFIG) := by
    by_cases h : NM_DEVICE_STATE_PREPARE ≤ new_state ∧ new_state ≤ NM_DEVICE_STATE_IP_CONFIG
    · simp [h]
    · simp only [ge_iff_le, h, if_false, decide_False]
  unfold state_changed
  simp only [hself, hb]
  generalize (if new_state = NM_DEVICE_STATE_UNAVAILABLE then find_companion w else w) = w1
  cases hc : w1.priv.companion with
  | none => simp
  | some c =>
    obtain ⟨_, t2, t3, _, _⟩ := nm_device_wifi_scanning_prohibited_track_spec w1 c w.self
      (decide (NM_DEVICE_STATE_PREPARE ≤ new_state ∧ new_state ≤ NM_DEVICE_STATE_IP_CONFIG))
    obtain ⟨_, _, f3⟩ := nm_device_wifi_scanning_prohibited_track_frame w1 c w.self
      (decide (NM_DEVICE_STATE_PREPARE ≤ new_state ∧ new_state ≤ NM_DEVICE_STATE_IP_CONFIG))
    exact ⟨t3, fun p => (f3 p).1, t2⟩

/-- The replay of the calls on a pending action goes through a concatenation
of traces. -/
theorem pending_calls_hold_append (dev : Nat) (a : PendingAction) (ca cr : Bool → Bool)
    (t1 t2 : List Effect) :
    ∀ p, pending_calls_hold dev a ca cr p (t1 ++ t2)
      = (pending_calls_hold dev a ca cr p t1
          && pending_calls_hold dev a ca cr (pending_after dev a p t1) t2) := by
  induction t1 with
  | nil => intro p; simp [pending_calls_hold, pending_after]
  | cons e t ih =>
    intro p
    simp only [List.cons_append, pending_calls_hold, pending_after, List.append_eq]
    cases h1 : is_add_pending dev a e <;> cases h2 : is_remove_pending dev a e <;>
      simp [ih, Bool.and_assoc]

/-- The calls of `find_companion` on the pending action: one add exactly when
it starts with no companion, one removal exactly when it then binds one, the
removal coming after the add. -/
theorem find_companion_pending_calls (w : World) :
    ∃ n : List Effect,
      (find_companion w).trace = w.trace ++ n
      ∧ n.countP (is_add_pending w.self PendingAction.WAITING_FOR_COMPANION)
          = (if w.priv.companion = none then 1 else 0)
      ∧ n.countP (is_remove_pending w.self PendingAction.WAITING_FOR_COMPANION)
          = (if w.priv.companion = none ∧ (find_companion w).priv.companion ≠ none then 1
             else 0)
      ∧ (w.priv.companion = none → (find_companion w).priv.companion ≠ none →
          PendingAction.WAITING_FOR_COMPANION ∉ ((find_companion w).objs w.self).pending_actions)
      ∧ (w.priv.companion ≠ none → find_companion w = w)
      ∧ ∀ p, pending_calls_hold w.self PendingAction.WAITING_FOR_COMPANION (fun _ => false)
          (fun b => b) p n = true := by
  cases hc : w.priv.companion with
  | some c =>
    refine ⟨[], ?_, ?_, ?_, ?_, ?_, ?_⟩
    · rw [find_companion_bound w c hc]; simp
    · simp
    · simp
    · intro h; cases h
    · intro _; exact find_companion_bound w c hc
    · intro p; rfl
  | none =>
    cases hf : w.manager_devices.find? (fun d => NM_IS_DEVICE_WIFI w d
            && nm_utils_hwaddr_matches (nm_device_get_hw_address w w.self)
                (nm_device_get_hw_address w d)) with
    | none =>
      obtain ⟨g1, _, _, _, g5⟩ := find_companion_not_found w hc hf
      refine ⟨_, g5, ?_, ?_, ?_, ?_, ?_⟩
      · simp [is_add_pending]
      · simp [is_remove_pending, g1, hc]
      · intro _ h; rw [g1, hc] at h; exact absurd rfl h
      · intro h; exact absurd rfl h
      · intro p; simp [pending_calls_hold, is_add_pending]
    | some c =>
      obtain ⟨g1, _, _, g4, _, g6⟩ := find_companion_found w hc c hf
      refine ⟨_, g6, ?_, ?_, ?_, ?_, ?_⟩
      · simp [binding_calls, is_add_pending]
      · simp [binding_calls, is_remove_pending, g1]
      · intro _ _; exact g4
      · intro h; exact absurd rfl h
      · intro p
        simp [binding_calls, pending_calls_hold, is_add_pending, is_remove_pending, assert_flag]

/-- One event, whatever the world: the calls it records on the pending action
"waiting for companion" and what it leaves pending. -/
theorem step_pending_calls (w : World) (e : Event) :
    ∃ n : List Effect,
      (step w e).trace = w.trace ++ n
      ∧ (step w e).self = w.self
      ∧ n.countP (is_add_pending w.self PendingAction.WAITING_FOR_COMPANION)
          = (if is_unavailable_transition e = true ∧ w.priv.companion = none then 1 else 0)
      ∧ n.countP (is_remove_pending w.self PendingAction.WAITING_FOR_COMPANION)
          = (if w.priv.companion = none ∧ (step w e).priv.companion ≠ none then 1 else 0)
      ∧ (w.priv.companion = none → (step w e).priv.companion ≠ none →
          PendingAction.WAITING_FOR_COMPANION ∉ ((step w e).objs w.self).pending_actions)
      ∧ (w.priv.companion ≠ none →
          ((step w e).objs w.self).pending_actions = (w.objs w.self).pending_actions)
      ∧ ∀ p, pending_calls_hold w.self PendingAction.WAITING_FOR_COMPANION (fun _ => false)
          (fun b => b) p n = true := by
  cases e with
  | state_changed new_state old_state reason =>
    obtain ⟨s1, s2, s3⟩ := state_changed_spec w new_state old_state reason
    have hself := (state_changed_stage1_waiting w new_state old_state reason).2
    by_cases hn : new_state = NM_DEVICE_STATE_UNAVAILABLE
    · simp only [hn, if_true] at s1 s2 s3
      obtain ⟨n, f1, f2, f3, f4, f5, f6⟩ := find_companion_pending_calls w
      refine ⟨n ++ (match (find_companion w).priv.companion with
              | some c =>
                [Effect.scanning_prohibited_track c w.self
                  (decide (NM_DEVICE_STATE_PREPARE ≤ NM_DEVICE_STATE_UNAVAILABLE
                    ∧ NM_DEVICE_STATE_UNAVAILABLE ≤ NM_DEVICE_STATE_IP_CONFIG))]
              | none => []), ?_, hself, ?_, ?_, ?_, ?_, ?_⟩
      · simp only [step, hn]
        rw [s3, f1, List.append_assoc]
      · rw [List.countP_append, f2]
        cases (find_companion w).priv.companion <;>
          simp [is_unavailable_transition, hn, is_add_pending]
      · simp only [step, hn, s1]
        rw [List.countP_append, f3]
        cases (find_companion w).priv.companion <;> simp [is_remove_pending]
      · intro h1 h2
        simp only [step, hn] at h2 ⊢
        rw [s1] at h2
        rw [s2]
        exact f4 h1 h2
      · intro h1
        simp only [step, hn]
        rw [s2, f5 h1]
      · intro p
        rw [pending_calls_hold_append, f6]
        cases (find_companion w).priv.companion <;>
          simp [pending_calls_hold, is_add_pending, is_remove_pending]
    · simp only [hn, if_false] at s1 s2 s3
      refine ⟨_, s3, hself, ?_, ?_, ?_, ?_, ?_⟩
      · cases w.priv.companion <;> simp [is_unavailable_transition, hn, is_add_pending]
      · simp only [step, s1]
        cases w.priv.companion <;> simp [is_remove_pending]
      · intro h1 h2
        simp only [step] at h2
        rw [s1] at h2
        exact absurd h1 h2
      · intro _
        simp only [step]
        exact s2 w.self
      · intro p
        cases w.priv.companion <;> simp [pending_calls_hold, is_add_pending, is_remove_pending]
  | device_added other =>
    simp only [step, is_unavailable_transition]
    cases hc : w.priv.companion with
    | some c =>
      have he := device_added_cb_bound w c other hc
      refine ⟨[], ?_, ?_, ?_, ?_, ?_, ?_, ?_⟩ <;> simp [he, hc, pending_calls_hold]
    | none =>
      cases hv : (check_companion w other).1 with
      | false =>
        have he := device_added_cb_rejected w other hc hv
        refine ⟨[], ?_, ?_, ?_, ?_, ?_, ?_, ?_⟩ <;> simp [he, hc, pending_calls_hold]
      | true =>
        obtain ⟨a1, a2, a3, a4⟩ := device_added_cb_accepted w other hc hv
        refine ⟨_, a4, a2, ?_, ?_, fun _ _ => a3, fun h => absurd rfl h, ?_⟩
        · simp [binding_calls, is_add_pending]
        · simp [binding_calls, is_remove_pending, a1]
        · intro p
          simp [binding_calls, pending_calls_hold, is_add_pending, is_remove_pending,
            assert_flag]
  | device_removed other =>
    simp only [step, is_unavailable_transition]
    obtain ⟨c1, _, c3, c4, c5⟩ := companion_cleanup_spec w
    by_cases ho : some other = w.priv.companion
    · have he : device_removed_cb w other = companion_cleanup w := by
        unfold device_removed_cb
        simp [ho]
      simp only [he, c1]
      refine ⟨_, by rw [c5, List.append_assoc], c3, ?_, ?_, ?_, fun _ => c4 w.self, ?_⟩
      · cases w.priv.companion <;> simp [is_add_pending]
      · cases w.priv.companion <;> simp [is_remove_pending]
      · intro _ h; exact absurd rfl h
      · intro p
        cases w.priv.companion <;> simp [pending_calls_hold, is_add_pending, is_remove_pending]
    · have he : device_removed_cb w other = w := by
        unfold device_removed_cb
        simp [ho]
      refine ⟨[], ?_, ?_, ?_, ?_, fun h1 h2 => ?_, ?_, ?_⟩
      · simp [he]
      · simp [he]
      · simp
      · simp [he]
      · rw [he] at h2; exact absurd h1 h2
      · simp [he]
      · simp [pending_calls_hold]
  | dispose =>
    simp only [step, is_unavailable_transition]
    obtain ⟨c1, _, _, _, c5⟩ := companion_cleanup_spec w
    obtain ⟨d1, d2, d3, d4⟩ := dispose_spec w
    simp only [d1]
    refine ⟨_, by rw [d4, c5, List.append_assoc, List.append_assoc], d2, ?_, ?_, ?_,
      fun _ => d3 w.self, ?_⟩
    · cases w.priv.companion <;> cases w.priv.manager <;> simp [is_add_pending]
    · cases w.priv.companion <;> cases w.priv.manager <;> simp [is_remove_pending]
    · intro _ h; exact absurd rfl h
    · intro p
      cases w.priv.companion <;> cases w.priv.manager <;>
        simp [pending_calls_hold, is_add_pending, is_remove_pending]

/-! ## Sequences of events -/

/-- Along every sequence of events the address of the mesh device is kept, and
a world in which a bound companion implies that the pending action is not set
leads to such a world. -/
theorem run_invariant (es : List Event) :
    ∀ w : World,
      (w.priv.companion ≠ none →
        PendingAction.WAITING_FOR_COMPANION ∉ (w.objs w.self).pending_actions) →
      (run w es).self = w.self
      ∧ ((run w es).priv.companion ≠ none →
          PendingAction.WAITING_FOR_COMPANION
            ∉ ((run w es).objs (run w es).self).pending_actions) := by
  induction es with
  | nil => intro w h; exact ⟨rfl, h⟩
  | cons e es ih =>
    intro w h
    obtain ⟨_, _, hs, _, _, h5, h6, _⟩ := step_pending_calls w e
    have hstep : (step w e).priv.companion ≠ none →
        PendingAction.WAITING_FOR_COMPANION
          ∉ ((step w e).objs (step w e).self).pending_actions := by
      intro hb
      rw [hs]
      by_cases hc : w.priv.companion = none
      · exact h5 hc hb
      · rw [h6 hc]; exact h hc
    obtain ⟨i1, i2⟩ := ih (step w e) hstep
    simp only [run]
    exact ⟨by rw [i1, hs], i2⟩

/-- Along every sequence of events the trace only grows, and in what it gains
every removal of the pending action made with `assert_is_pending` TRUE finds
the action set, whatever was pending before. -/
theorem run_pending_calls (es : List Event) :
    ∀ w : World, ∃ m : List Effect,
      (run w es).trace = w.trace ++ m
      ∧ (run w es).self = w.self
      ∧ ∀ p, pending_calls_hold w.self PendingAction.WAITING_FOR_COMPANION (fun _ => false)
          (fun b => b) p m = true := by
  induction es with
  | nil => intro w; exact ⟨[], by simp [run], rfl, fun _ => rfl⟩
  | cons e es ih =>
    intro w
    obtain ⟨n, h1, hs, _, _, _, _, h7⟩ := step_pending_calls w e
    obtain ⟨m, i1, i2, i3⟩ := ih (step w e)
    refine ⟨n ++ m, ?_, ?_, ?_⟩
    · simp only [run]
      rw [i1, h1, List.append_assoc]
    · simp only [run]
      rw [i2, hs]
    · intro p
      rw [pending_calls_hold_append, h7 p, ← hs, i3]
      rfl

/-- C12: in every world reached from a mesh device with no companion by any
sequence of `state_changed`, `device_added_cb`, `device_removed_cb` and
`dispose` events, `is_available` answers TRUE only when the pending action
"waiting for companion" is not set, and whenever a companion is bound the
pending action is not set. -/
theorem waiting_for_companion_invariant (w : World) (h0 : w.priv.companion = none)
    (es : List Event) :
    (is_available (run w es) = true → waiting_for_companion (run w es) = false)
    ∧ (∀ c, (run w es).priv.companion = some c → waiting_for_companion (run w es) = false) := by
  obtain ⟨_, hinv⟩ := run_invariant es w (fun h => absurd h0 h)
  have hb : ∀ c, (run w es).priv.companion = some c →
      waiting_for_companion (run w es) = false := by
    intro c hc
    have hne : (run w es).priv.companion ≠ none := by rw [hc]; exact Option.some_ne_none c
    unfold waiting_for_companion
    simp only [hinv hne, decide_False]
  refine ⟨?_, hb⟩
  intro ha
  cases hc : (run w es).priv.companion with
  | none => unfold is_available at ha; rw [hc] at ha; cases ha
  | some c => exact hb c hc

/-- Scenarios A and E of the spec for C12: a fresh D waits in UNAVAILABLE with
no matching device, C is added and bound, D is activated, C is removed, a
second matching device is added and bound; D ends available and not
waiting. -/
theorem waiting_for_companion_invariant_witness :
    (is_available
        (run (fresh_world [1, 4])
          [Event.state_changed NM_DEVICE_STATE_UNAVAILABLE NM_DEVICE_STATE_UNMANAGED
              NMDeviceStateReason.NONE,
           Event.device_added 2,
           Event.state_changed NM_DEVICE_STATE_DISCONNECTED NM_DEVICE_STATE_UNAVAILABLE
              NMDeviceStateReason.NONE,
           Event.device_removed 2,
           Event.device_added 3]) = true)
    ∧ (waiting_for_companion
        (run (fresh_world [1, 4])
          [Event.state_changed NM_DEVICE_STATE_UNAVAILABLE NM_DEVICE_STATE_UNMANAGED
              NMDeviceStateReason.NONE,
           Event.device_added 2,
           Event.state_changed NM_DEVICE_STATE_DISCONNECTED NM_DEVICE_STATE_UNAVAILABLE
              NMDeviceStateReason.NONE,
           Event.device_removed 2,
           Event.device_added 3]) = false)
    ∧ (waiting_for_companion
        (run (fresh_world [1, 4])
          [Event.state_changed NM_DEVICE_STATE_UNAVAILABLE NM_DEVICE_STATE_UNMANAGED
              NMDeviceStateReason.NONE,
           Event.device_added 2]) = false) :=
  ⟨by decide,
   (waiting_for_companion_invariant (fresh_world [1, 4]) rfl
      [Event.state_changed NM_DEVICE_STATE_UNAVAILABLE NM_DEVICE_STATE_UNMANAGED
          NMDeviceStateReason.NONE,
       Event.device_added 2,
       Event.state_changed NM_DEVICE_STATE_DISCONNECTED NM_DEVICE_STATE_UNAVAILABLE
          NMDeviceStateReason.NONE,
       Event.device_removed 2,
       Event.device_added 3]).1 (by decide),
   (waiting_for_companion_invariant (fresh_world [1, 4]) rfl
      [Event.state_changed NM_DEVICE_STATE_UNAVAILABLE NM_DEVICE_STATE_UNMANAGED
          NMDeviceStateReason.NONE,
       Event.device_added 2]).2 2 (by decide)⟩

/-! ## The discipline of the pending action -/

/-- C16, the claim as stated fails: D binds C on its transition to UNAVAILABLE
(the pending action is added and removed), C leaves the registry, a second
matching Wi-Fi device enters it; `device_added_cb` binds it and calls the
removal although the pending action is not set.  The same happens when the
first matching device enters the registry before D ever became UNAVAILABLE. -/
theorem device_added_cb_removes_when_absent :
    waiting_for_companion
        (run (fresh_world [1, 2])
          [Event.state_changed NM_DEVICE_STATE_UNAVAILABLE NM_DEVICE_STATE_UNMANAGED
              NMDeviceStateReason.NONE,
           Event.device_removed 2]) = false
    ∧ (step
        (run (fresh_world [1, 2])
          [Event.state_changed NM_DEVICE_STATE_UNAVAILABLE NM_DEVICE_STATE_UNMANAGED
              NMDeviceStateReason.NONE,
           Event.device_removed 2])
        (Event.device_added 3)).trace.getLast?
      = some (Effect.remove_pending_action 1 PendingAction.WAITING_FOR_COMPANION false)
    ∧ pending_calls_hold 1 PendingAction.WAITING_FOR_COMPANION (fun _ => true) (fun _ => true)
        false
        (run (fresh_world [1, 2])
          [Event.state_changed NM_DEVICE_STATE_UNAVAILABLE NM_DEVICE_STATE_UNMANAGED
              NMDeviceStateReason.NONE,
           Event.device_removed 2,
           Event.device_added 3]).trace = false
    ∧ waiting_for_companion (fresh_world [1, 2]) = false
    ∧ pending_calls_hold 1 PendingAction.WAITING_FOR_COMPANION (fun _ => true) (fun _ => true)
        false (run (fresh_world [1, 2]) [Event.device_added 2]).trace = false := by
  decide

/-- The assertion of `find_companion` on its add does not hold on every run: a
mesh device that stays without companion and becomes UNAVAILABLE, UNMANAGED
and UNAVAILABLE again adds the pending action, with `assert_not_yet_pending`
TRUE, while it is set. -/
theorem find_companion_adds_while_pending :
    waiting_for_companion
        (run (fresh_world [1, 4])
          [Event.state_changed NM_DEVICE_STATE_UNAVAILABLE NM_DEVICE_STATE_UNMANAGED
              NMDeviceStateReason.NONE,
           Event.state_changed NM_DEVICE_STATE_UNMANAGED NM_DEVICE_STATE_UNAVAILABLE
              NMDeviceStateReason.NONE]) = true
    ∧ (step
        (run (fresh_world [1, 4])
          [Event.state_changed NM_DEVICE_STATE_UNAVAILABLE NM_DEVICE_STATE_UNMANAGED
              NMDeviceStateReason.NONE,
           Event.state_changed NM_DEVICE_STATE_UNMANAGED NM_DEVICE_STATE_UNAVAILABLE
              NMDeviceStateReason.NONE])
        (Event.state_changed NM_DEVICE_STATE_UNAVAILABLE NM_DEVICE_STATE_UNMANAGED
              NMDeviceStateReason.NONE)).trace.getLast?
      = some (Effect.add_pending_action 1 PendingAction.WAITING_FOR_COMPANION true) := by
  decide

/-- C16, amended: for every world and every event, hence along every sequence
of `state_changed`, `device_added_cb` and `device_removed_cb` events (and
`dispose`), the pending action "waiting for companion" is added exactly by a
transition to UNAVAILABLE that starts with no companion bound, at the start
of its discovery pass; it is removed exactly once by every event that binds a
companion and by no other event, and after such an event it is not set.
Along every sequence, every removal made with `assert_is_pending` TRUE (the
one of `find_companion`) finds the action set; the removal made by
`device_added_cb` passes `assert_is_pending` FALSE and is made whether or not
the action is set. -/
theorem pending_action_discipline (w : World) (e : Event) (es : List Event) :
    ((step w e).trace.drop w.trace.length).countP
        (is_add_pending w.self PendingAction.WAITING_FOR_COMPANION)
      = (if is_unavailable_transition e = true ∧ w.priv.companion = none then 1 else 0)
    ∧ ((step w e).trace.drop w.trace.length).countP
        (is_remove_pending w.self PendingAction.WAITING_FOR_COMPANION)
      = (if w.priv.companion = none ∧ (step w e).priv.companion ≠ none then 1 else 0)
    ∧ (w.priv.companion = none → (step w e).priv.companion ≠ none →
        waiting_for_companion (step w e) = false)
    ∧ (∀ p, pending_calls_hold w.self PendingAction.WAITING_FOR_COMPANION (fun _ => false)
        (fun b => b) p ((run w es).trace.drop w.trace.length) = true)
    ∧ (∀ other, w.priv.companion = none → (check_companion w other).1 = true →
        (device_added_cb w other).trace.getLast?
          = some (Effect.remove_pending_action w.self PendingAction.WAITING_FOR_COMPANION
              false)) := by
  obtain ⟨n, h1, hs, h3, h4, h5, _, _⟩ := step_pending_calls w e
  obtain ⟨m, r1, _, r3⟩ := run_pending_calls es w
  have hd : (step w e).trace.drop w.trace.length = n := by rw [h1, List.drop_left]
  have hr : (run w es).trace.drop w.trace.length = m := by rw [r1, List.drop_left]
  rw [hd, hr]
  refine ⟨h3, h4, ?_, r3, ?_⟩
  · intro a b
    unfold waiting_for_companion
    rw [hs]
    simp only [h5 a b, decide_False]
  · intro other hc hv
    rw [(device_added_cb_accepted w other hc hv).2.2.2]
    simp [binding_calls]

/-- A fresh D becomes UNAVAILABLE with C in the registry: one add, one
removal, C bound and nothing pending; later C is removed and a second
matching device is added: `device_added_cb` ends with its removal. -/
theorem pending_action_discipline_witness :
    (waiting_for_companion
        (step (fresh_world [1, 2])
          (Event.state_changed NM_DEVICE_STATE_UNAVAILABLE NM_DEVICE_STATE_UNMANAGED
            NMDeviceStateReason.NONE)) = false)
    ∧ ((device_added_cb
          (run (fresh_world [1, 2])
            [Event.state_changed NM_DEVICE_STATE_UNAVAILABLE NM_DEVICE_STATE_UNMANAGED
                NMDeviceStateReason.NONE,
             Event.device_removed 2]) 3).trace.getLast?
        = some (Effect.remove_pending_action 1 PendingAction.WAITING_FOR_COMPANION false)) :=
  ⟨(pending_action_discipline (fresh_world [1, 2])
      (Event.state_changed NM_DEVICE_STATE_UNAVAILABLE NM_DEVICE_STATE_UNMANAGED
        NMDeviceStateReason.NONE) []).2.2.1 rfl (by decide),
   (pending_action_discipline
      (run (fresh_world [1, 2])
        [Event.state_changed NM_DEVICE_STATE_UNAVAILABLE NM_DEVICE_STATE_UNMANAGED
            NMDeviceStateReason.NONE,
         Event.device_removed 2])
      (Event.device_added 3) []).2.2.2.2 3 (by decide) (by decide)⟩

end OlpcMesh
